import Mathlib

/-!
Verification of the musicdb_parser repository (Apple Music / iTunes library
database reader) against its natural-language specification.

The Python sources under `src/` are shallowly embedded below:

* `src/utils.py` — `BufferReader` and helpers (this section);
* `src/musicdb/parsing_types.py`, `src/musicdb/parsing.py` — the musicdb
  format engine;
* `src/musicdb/library.py` — the view layer;
* `src/itl/parsing_types.py`, `src/itl/parsing.py` — the itl format engine.

Bytes are modelled as `List Nat` (each element a byte value 0..255), machine
integers as `Nat` with explicit reductions modulo 2^w where the code relies
on them, fallible Python code as `Except PyErr`.  Python exceptions are
collapsed to the `PyErr` kind raised at the corresponding source line.
-/

namespace MusicdbParser

/-- The Python exception kinds raised by the parser code.  Each constructor
corresponds to a family of `raise` sites (or runtime errors) in the source:
`structError` is `struct.error` from a read past the end of the buffer,
`badSignature` is the `ValueError` of `utils.check_signature`,
`posMismatch` is the `ValueError` for a block that does not end at its
declared end position, `unknownBlockType` is the itl `ValueError` for an
unknown msdh block type, `enumValueError` is the `ValueError` of an
`IntEnum` conversion with a value outside the enumeration,
`attributeError` is the `AttributeError` for an access to a nonexistent
enum member, `assertionError` is a failing `assert`, `valueError` covers
the remaining `ValueError` sites, and `fuelExhausted` marks a Python
`while` loop that does not terminate (modelled with fuel). -/
inductive PyErr where
  | badSignature
  | lengthMismatch
  | structError
  | posMismatch
  | unknownBlockType
  | enumValueError
  | attributeError
  | assertionError
  | valueError
  | fuelExhausted
  deriving DecidableEq, Repr

/-- `utils.BufferReader`: a byte buffer together with a cursor position.
The cursor never goes negative on any code path modelled here, so it is
a `Nat`. -/
structure BufferReader where
  data : List Nat
  pos : Nat
  deriving DecidableEq, Repr

/-- Python's `data[i : i + n]` for `i ≥ 0`, followed by the `struct.unpack`
length check: `unpack` raises `struct.error` exactly when the slice is
shorter than the requested size (for the sizes used here, `n ≥ 1`, that is
when `i + n > len(data)`). -/
def sliceExact (d : List Nat) (i n : Nat) : Except PyErr (List Nat) :=
  let s := (d.drop i).take n
  if s.length = n then .ok s else .error .structError

/-- Little-endian value of a byte list (first byte least significant). -/
def leVal (bs : List Nat) : Nat :=
  bs.foldr (fun b acc => b + 256 * acc) 0

/-- Big-endian value of a byte list (first byte most significant). -/
def beVal (bs : List Nat) : Nat :=
  bs.foldl (fun acc b => acc * 256 + b) 0

/-- Take `n` bytes at index `i` of an already-extracted slice. -/
def chunk (bs : List Nat) (i n : Nat) : List Nat :=
  (bs.drop i).take n

/-- Little-endian integer at index `i` (width `n` bytes) of a slice. -/
def leAt (bs : List Nat) (i n : Nat) : Nat :=
  leVal (chunk bs i n)

/-- `BufferReader.read_uint8`: `struct.unpack('B', data[pos+off : pos+off+1])`. -/
def readUInt8 (r : BufferReader) (off : Nat) : Except PyErr Nat :=
  (sliceExact r.data (r.pos + off) 1).map leVal

/-- `BufferReader.read_uint16` (`little_endian` selects `<H` or `>H`). -/
def readUInt16 (r : BufferReader) (off : Nat) (littleEndian : Bool := true) :
    Except PyErr Nat :=
  (sliceExact r.data (r.pos + off) 2).map
    (fun bs => if littleEndian then leVal bs else beVal bs)

/-- `BufferReader.read_uint32` (`little_endian` selects `<I` or `>I`). -/
def readUInt32 (r : BufferReader) (off : Nat) (littleEndian : Bool := true) :
    Except PyErr Nat :=
  (sliceExact r.data (r.pos + off) 4).map
    (fun bs => if littleEndian then leVal bs else beVal bs)

/-- Two's-complement reinterpretation of a 32-bit unsigned value. -/
def toSigned32 (v : Nat) : Int :=
  if v < 2 ^ 31 then (v : Int) else (v : Int) - 2 ^ 32

/-- `BufferReader.read_int32` (`little_endian` selects `<i` or `>i`). -/
def readInt32 (r : BufferReader) (off : Nat) (littleEndian : Bool := true) :
    Except PyErr Int :=
  (sliceExact r.data (r.pos + off) 4).map
    (fun bs => toSigned32 (if littleEndian then leVal bs else beVal bs))

/-- `BufferReader.read_uint64` (`little_endian` selects `<Q` or `>Q`). -/
def readUInt64 (r : BufferReader) (off : Nat) (littleEndian : Bool := true) :
    Except PyErr Nat :=
  (sliceExact r.data (r.pos + off) 8).map
    (fun bs => if littleEndian then leVal bs else beVal bs)

/-- `BufferReader.read_bytes`: a plain Python slice.  Slicing never raises;
it silently returns whatever bytes exist in the addressed range (possibly
fewer than `length`).  `length = none` is Python's `length=None`
(read to the end of the buffer). -/
def readBytes (r : BufferReader) (off : Nat) (length : Option Nat) : List Nat :=
  match length with
  | none => r.data.drop (r.pos + off)
  | some l => (r.data.drop (r.pos + off)).take l

/-- `BufferReader.advance` with a nonnegative delta. -/
def advanceNat (r : BufferReader) (n : Nat) : BufferReader :=
  { r with pos := r.pos + n }

/-- `BufferReader.advance` with a signed delta.  Python's `pos` is an `int`;
no code path modelled here drives it negative, and the clamp to 0 below is
therefore never observable. -/
def advanceInt (r : BufferReader) (d : Int) : BufferReader :=
  { r with pos := ((r.pos : Int) + d).toNat }

/-- `utils.check_signature`: raises `ValueError` on a signature mismatch. -/
def checkSignature (signature expected : List Nat) : Except PyErr Unit :=
  if signature = expected then .ok () else .error .badSignature

/-- `reader.read('<4sI')`: a 4-byte tag and one little-endian u32. -/
def read4sI (r : BufferReader) (off : Nat := 0) :
    Except PyErr (List Nat × Nat) :=
  (sliceExact r.data (r.pos + off) 8).map
    (fun bs => (chunk bs 0 4, leAt bs 4 4))

/-- `reader.read('<4sII')`: a 4-byte tag and two little-endian u32s. -/
def read4sII (r : BufferReader) (off : Nat := 0) :
    Except PyErr (List Nat × Nat × Nat) :=
  (sliceExact r.data (r.pos + off) 12).map
    (fun bs => (chunk bs 0 4, leAt bs 4 4, leAt bs 8 4))

/-- `reader.read('<4sIII')`: a 4-byte tag and three little-endian u32s. -/
def read4sIII (r : BufferReader) (off : Nat := 0) :
    Except PyErr (List Nat × Nat × Nat × Nat) :=
  (sliceExact r.data (r.pos + off) 16).map
    (fun bs => (chunk bs 0 4, leAt bs 4 4, leAt bs 8 4, leAt bs 12 4))

/-- `reader.read('<4sIIII')`: a 4-byte tag and four little-endian u32s. -/
def read4sIIII (r : BufferReader) (off : Nat := 0) :
    Except PyErr (List Nat × Nat × Nat × Nat × Nat) :=
  (sliceExact r.data (r.pos + off) 20).map
    (fun bs => (chunk bs 0 4, leAt bs 4 4, leAt bs 8 4, leAt bs 12 4,
      leAt bs 16 4))

/-- `reader.read('<4sIIIQI')`: tag, three u32s, one u64, one u32 (28 bytes),
as used by `_parse_itma_track`. -/
def read4sIIIQI (r : BufferReader) (off : Nat := 0) :
    Except PyErr (List Nat × Nat × Nat × Nat × Nat × Nat) :=
  (sliceExact r.data (r.pos + off) 28).map
    (fun bs => (chunk bs 0 4, leAt bs 4 4, leAt bs 8 4, leAt bs 12 4,
      leAt bs 16 8, leAt bs 24 4))

/-- `reader.read('<II')`: two little-endian u32s, as used by the video and
resolution containers and by the itl flex string header. -/
def readII (r : BufferReader) (off : Nat := 0) :
    Except PyErr (Nat × Nat) :=
  (sliceExact r.data (r.pos + off) 8).map
    (fun bs => (leAt bs 0 4, leAt bs 4 4))

/-- The Unicode replacement character U+FFFD, produced by Python's
`errors='replace'` decoding mode. -/
def replacementChar : Char := Char.ofNat 0xFFFD

/-- Is `b` a UTF-8 continuation byte (`0x80..0xBF`)? -/
def isCont (b : Nat) : Bool := 0x80 ≤ b && b ≤ 0xBF

/-- `bytes.decode('utf-8', errors='replace')`: standard UTF-8 decoding where a
malformed sequence contributes U+FFFD.  A truncated or invalid multi-byte
sequence is replaced by a single U+FFFD covering the prefix read so far and
decoding resumes at the offending byte, matching CPython.  The `fuel`
argument only bounds the recursion; it is instantiated with the byte count. -/
def utf8DecodeAux : Nat → List Nat → List Char
  | 0, _ => []
  | _, [] => []
  | fuel + 1, b :: rest =>
    if b < 0x80 then Char.ofNat b :: utf8DecodeAux fuel rest
    else if 0xC2 ≤ b && b ≤ 0xDF then
      match rest with
      | b2 :: rest2 =>
        if isCont b2 then
          Char.ofNat ((b - 0xC0) * 0x40 + (b2 - 0x80)) :: utf8DecodeAux fuel rest2
        else replacementChar :: utf8DecodeAux fuel rest
      | [] => [replacementChar]
    else if 0xE0 ≤ b && b ≤ 0xEF then
      match rest with
      | b2 :: rest2 =>
        if (if b = 0xE0 then 0xA0 ≤ b2 && b2 ≤ 0xBF
            else if b = 0xED then 0x80 ≤ b2 && b2 ≤ 0x9F
            else isCont b2) then
          match rest2 with
          | b3 :: rest3 =>
            if isCont b3 then
              Char.ofNat ((b - 0xE0) * 0x1000 + (b2 - 0x80) * 0x40 + (b3 - 0x80))
                :: utf8DecodeAux fuel rest3
            else replacementChar :: utf8DecodeAux fuel rest2
          | [] => [replacementChar]
        else replacementChar :: utf8DecodeAux fuel rest
      | [] => [replacementChar]
    else if 0xF0 ≤ b && b ≤ 0xF4 then
      match rest with
      | b2 :: rest2 =>
        if (if b = 0xF0 then 0x90 ≤ b2 && b2 ≤ 0xBF
            else if b = 0xF4 then 0x80 ≤ b2 && b2 ≤ 0x8F
            else isCont b2) then
          match rest2 with
          | b3 :: rest3 =>
            if isCont b3 then
              match rest3 with
              | b4 :: rest4 =>
                if isCont b4 then
                  Char.ofNat ((b - 0xF0) * 0x40000 + (b2 - 0x80) * 0x1000 +
                      (b3 - 0x80) * 0x40 + (b4 - 0x80)) :: utf8DecodeAux fuel rest4
                else replacementChar :: utf8DecodeAux fuel rest3
              | [] => [replacementChar]
            else replacementChar :: utf8DecodeAux fuel rest2
          | [] => [replacementChar]
        else replacementChar :: utf8DecodeAux fuel rest
      | [] => [replacementChar]
    else replacementChar :: utf8DecodeAux fuel rest

/-- `bytes.decode('utf-8', errors='replace')` as a `String`. -/
def utf8DecodeReplace (bs : List Nat) : String :=
  String.mk (utf8DecodeAux bs.length bs)

/-- Decode a list of UTF-16 code units with surrogate-pair combination and
replacement of unpaired surrogates, as Python's UTF-16 codec does. -/
def utf16Units : Nat → List Nat → List Char
  | 0, _ => []
  | _, [] => []
  | fuel + 1, u :: rest =>
    if 0xD800 ≤ u && u ≤ 0xDBFF then
      match rest with
      | u2 :: rest2 =>
        if 0xDC00 ≤ u2 && u2 ≤ 0xDFFF then
          Char.ofNat (0x10000 + (u - 0xD800) * 0x400 + (u2 - 0xDC00))
            :: utf16Units fuel rest2
        else replacementChar :: utf16Units fuel rest
      | [] => [replacementChar]
    else if 0xDC00 ≤ u && u ≤ 0xDFFF then replacementChar :: utf16Units fuel rest
    else Char.ofNat u :: utf16Units fuel rest

/-- Pair up bytes into little-endian 16-bit units; a trailing odd byte
becomes a replacement character (Python raises-and-replaces it). -/
def pairLE : List Nat → List Nat
  | b0 :: b1 :: rest => (b0 + 256 * b1) :: pairLE rest
  | [_] => [0xFFFD]
  | [] => []

/-- Pair up bytes into big-endian 16-bit units. -/
def pairBE : List Nat → List Nat
  | b0 :: b1 :: rest => (b0 * 256 + b1) :: pairBE rest
  | [_] => [0xFFFD]
  | [] => []

/-- `bytes.decode('utf-16', errors='replace')`: the codec honours a leading
byte-order mark and otherwise assumes the platform byte order; the code runs
on little-endian hosts, so headerless data is decoded little-endian. -/
def utf16DecodeReplace (bs : List Nat) : String :=
  match bs with
  | 0xFF :: 0xFE :: rest => String.mk (utf16Units rest.length (pairLE rest))
  | 0xFE :: 0xFF :: rest => String.mk (utf16Units rest.length (pairBE rest))
  | _ => String.mk (utf16Units bs.length (pairLE bs))

/-- Value of a hexadecimal digit character, if it is one (working on the
code point: 48–57 are the digits, 97–102 and 65–70 the two letter
ranges). -/
def hexDigitVal (c : Char) : Option Nat :=
  let n := c.toNat
  if 48 ≤ n ∧ n ≤ 57 then some (n - 48)
  else if 97 ≤ n ∧ n ≤ 102 then some (n - 87)
  else if 65 ≤ n ∧ n ≤ 70 then some (n - 55)
  else none

/-- First pass of `urllib.parse.unquote`: each `%hh` escape (two hex digits)
becomes a byte, everything else stays a literal character.  A `%` not
followed by two hex digits is kept literally, as in Python. -/
def unquoteScan : List Char → List (Sum Char Nat)
  | [] => []
  | '%' :: h1 :: h2 :: rest =>
    match hexDigitVal h1, hexDigitVal h2 with
    | some a, some b => Sum.inr (a * 16 + b) :: unquoteScan rest
    | _, _ => Sum.inl '%' :: unquoteScan (h1 :: h2 :: rest)
  | c :: rest => Sum.inl c :: unquoteScan rest

/-- `urllib.parse.unquote(s)` with the default UTF-8/replace handling:
maximal runs of escape bytes are decoded as UTF-8 with replacement,
literal characters are kept.  Processing the scanned list from the right,
`pending` holds the run of escape bytes immediately to the right of the
current element. -/
def pyUnquote (s : String) : String :=
  let scanned := unquoteScan s.data
  let st := scanned.foldr
    (fun x st =>
      match x, st with
      | Sum.inr b, (pending, out) => (b :: pending, out)
      | Sum.inl c, (pending, out) =>
        (([] : List Nat), c :: ((utf8DecodeReplace pending).data ++ out)))
    (([] : List Nat), ([] : List Char))
  String.mk ((utf8DecodeReplace st.1).data ++ st.2)

/-- Python's `str.removeprefix`: drop `p` from the front of `s` when it is a
prefix, otherwise return `s` unchanged. -/
def removePrefixStr (s p : String) : String :=
  if p.data.isPrefixOf s.data then String.mk (s.data.drop p.data.length) else s

/-- `utils.get_datetime`: `None` for a missing or zero timestamp, otherwise
the 1904-epoch instant shifted by `tz_offset`.  The `datetime` value is
represented by its signed distance in seconds from 1904-01-01 00:00:00. -/
def getDatetime (secsSince1904 : Option Nat) (tzOffset : Int) : Option Int :=
  match secsSince1904 with
  | none => none
  | some 0 => none
  | some s => some ((s : Int) + tzOffset)

/-! ### Exact model of the Python float arithmetic in `stars`/`short_rating`

`ItmaTrack.stars` (src/musicdb/parsing_types.py) and `Track.short_rating`
(src/musicdb/library.py) both compute `int(self.rating/100 * 5)` with Python
floats, i.e. IEEE-754 binary64: `rating/100` is the correctly rounded
(to nearest, ties to even) quotient, the product with the exact float `5.0`
is again correctly rounded, and `int` truncates toward zero.  The rounding
is modelled exactly over fractions of natural numbers for the normal range
(the magnitudes reached here lie between 2^-30 and 2^30, far from
subnormals and overflow). -/

/-- Decide `2^e ≤ a/b` (`b > 0`) by integer comparison, for a possibly
negative exponent `e`. -/
def pow2LEFrac (e : Int) (a b : Nat) : Bool :=
  if 0 ≤ e then b * 2 ^ e.toNat ≤ a else b ≤ a * 2 ^ (-e).toNat

/-- Largest exponent `e` with `2^e ≤ a/b`, found by scanning upward from the
start value (fuel-bounded so that it computes by kernel reduction; the
start `-31` and fuel `64` cover all magnitudes reached by `short_rating`). -/
def findExpAux : Nat → Int → Nat → Nat → Int
  | 0, e, _, _ => e
  | fuel + 1, e, a, b =>
    if pow2LEFrac (e + 1) a b then findExpAux fuel (e + 1) a b else e

/-- Round the nonnegative fraction `a/b` (`b > 0`) to the nearest IEEE-754
binary64 value — 53-bit significand, round to nearest, ties to even — and
return it as an exact fraction whose denominator is a power of two.  The
significand `m = (a/b)·2^(52-e)` is rounded half-to-even in integer
arithmetic; a zero numerator rounds to zero. -/
def roundDoublePosFrac (a b : Nat) : Nat × Nat :=
  let e := findExpAux 64 (-31) a b
  let ma := if 0 ≤ (52 : Int) - e then a * 2 ^ ((52 : Int) - e).toNat else a
  let mb := if 0 ≤ (52 : Int) - e then b else b * 2 ^ (e - 52).toNat
  let f := ma / mb
  let rem := ma % mb
  let rounded :=
    if 2 * rem < mb then f
    else if mb < 2 * rem then f + 1
    else if f % 2 = 0 then f else f + 1
  if 0 ≤ e - 52 then (rounded * 2 ^ (e - 52).toNat, 1)
  else (rounded, 2 ^ ((52 : Int) - e).toNat)

/-- The float expression `int(rating/100 * 5)` shared by `ItmaTrack.stars`
and `Track.short_rating`: `rating/100` is the correctly rounded binary64
quotient, the product with the exact float `5.0` is correctly rounded
again, and `int` truncates toward zero (plain division here, as the value
is nonnegative). -/
def pythonShortRating (rating : Nat) : Nat :=
  let q1 := roundDoublePosFrac rating 100
  let q2 := roundDoublePosFrac (q1.1 * 5) q1.2
  q2.1 / q2.2

/-! ### src/musicdb/parsing_types.py — enumerations and data model -/

/-- The values of `SectionType` (hsma section types). -/
def sectionTypeValues : List Nat := [1, 2, 3, 4, 5, 6, 17]

/-- The values of `BomaWideCharType` (UTF-16 string containers). -/
def bomaWideCharValues : List Nat :=
  [0x2, 0x3, 0x4, 0x5, 0x6, 0x8, 0xC, 0xE, 0x12, 0x16, 0x18, 0x19, 0x1B,
   0x1C, 0x1E, 0x1F, 0x20, 0x21, 0x22, 0x2B, 0x2E, 0x33, 0x34, 0x3B, 0x3C,
   0x3F, 0x40, 0x43, 0xC8, 0x12C, 0x12D, 0x12E, 0x190, 0x191, 0x12F, 0x1F4,
   0x1F8, 0x1FE, 0x2BE, 0x2BF]

/-- The values of `BomaUtf8Short`. -/
def bomaUtf8ShortValues : List Nat := [0x36, 0x38, 0x192]

/-- The values of `BomaUtf8Long`. -/
def bomaUtf8LongValues : List Nat := [0xB, 0x1D, 0x2BC, 0x3CC]

/-- The values of `BomaBookType`. -/
def bomaBookValues : List Nat := [0x42]

/-- The values of `BomaTrackNumericsType`. -/
def bomaTrackNumericsValues : List Nat := [0x1, 0x17]

/-- Which `IntEnum` class a stored `BomaDataContainer.type` member belongs
to.  Only the classes the parser actually constructs appear; Python enum
equality compares the integer value, the class matters only for the
member-`name` lookup done by the view layer. -/
inductive BomaCls where
  | wideChar
  | utf8Short
  | utf8Long
  | book
  | video
  deriving DecidableEq, Repr

/-- `BomaDataContainer`: the container's enum member is modelled as its
class plus integer value; `value` is the decoded string, or `none` for the
deliberately unparsed book shape. -/
structure BomaDataContainer where
  cls : BomaCls
  tag : Nat
  value : Option String
  deriving DecidableEq, Repr

/-- `ItmaTrack` (src/musicdb/parsing_types.py): a raw track record.  Fields
filled by the boma numerics handlers start out `None`. -/
structure ItmaTrack where
  persistent_id : Nat
  id : Nat
  starred : Bool
  rating : Nat
  unchecked : Nat
  bitrate : Option Nat := none
  date_added : Option Nat := none
  date_modified : Option Nat := none
  normalization : Option Nat := none
  song_time_ms : Option Nat := none
  file_size : Option Nat := none
  date_last_played : Option Nat := none
  play_count : Option Nat := none
  bomas : List BomaDataContainer := []
  deriving DecidableEq, Repr

/-- `ItmaTrack.stars`: `int(self.rating/100 * 5)`. -/
def ItmaTrack.stars (t : ItmaTrack) : Nat :=
  pythonShortRating t.rating

/-- `LpmaPlaylist` (src/musicdb/parsing_types.py): a raw playlist record. -/
structure LpmaPlaylist where
  persistent_id : Nat
  date_created : Nat
  date_modified : Nat
  num_tracks : Nat
  is_smart : Bool := false
  is_folder : Bool := false
  persistent_track_ids : List Nat := []
  bomas : List BomaDataContainer := []
  deriving DecidableEq, Repr

/-- The possible shapes of `Hsma.sub_section` (`None` or one of the list
payloads). -/
inductive SubSection where
  | tracks (l : List ItmaTrack)
  | playlists (l : List LpmaPlaylist)
  | bomas (l : List BomaDataContainer)
  | bomaLists (l : List (List BomaDataContainer))
  | none
  deriving DecidableEq, Repr

/-- `Hsma`: a parsed top-level musicdb section.  `section_type` is always a
member of `SectionType` when produced by the parser (the constructor call
`SectionType(section_type)` guarantees it). -/
structure Hsma where
  section_type : Nat
  sub_section : SubSection
  deriving DecidableEq, Repr

/-- `RawLibrary` (musicdb): version string, 1904-epoch creation date,
timezone offset and the ordered top-level sections. -/
structure RawLibrary where
  version : String
  date : Nat
  tz_offset : Int
  sections : List Hsma
  deriving DecidableEq, Repr

/-! ### src/musicdb/parsing.py — the boma track-numerics handler

`_parse_boma_track_numerics` mutates the current track in place; here it
maps the old track record to the new one.  `reader.pos` is the start of the
enclosing boma block (the reads do not advance the cursor). -/

/-- The `_set_if_unset` closure: assign only when the field is still `None`
(first-writer wins). -/
def setIfUnset (cur : Option Nat) (v : Nat) : Option Nat :=
  match cur with
  | none => some v
  | some w => some w

/-- `_parse_boma_track_numerics`: subtype `0x1` fills the six general
numeric fields from fixed offsets, subtype `0x17` fills `play_count` and —
only when the container's own stored play count is positive —
`date_last_played`.  Any other subtype matches no case and leaves the track
unchanged.  Reads are sequenced exactly as in the source (each read happens
even when the target field is already set). -/
def parseBomaTrackNumerics (r : BufferReader) (bomaSubtype : Nat)
    (itmaTrack : ItmaTrack) : Except PyErr ItmaTrack :=
  if bomaSubtype = 0x1 then do
    let bitrate ← readUInt32 r 108
    let t1 := { itmaTrack with bitrate := setIfUnset itmaTrack.bitrate bitrate }
    let dateAdded ← readUInt32 r 112
    let t2 := { t1 with date_added := setIfUnset t1.date_added dateAdded }
    let dateModified ← readUInt32 r 148
    let t3 := { t2 with date_modified := setIfUnset t2.date_modified dateModified }
    let normalization ← readUInt32 r 152
    let t4 := { t3 with normalization := setIfUnset t3.normalization normalization }
    let songTimeMs ← readUInt32 r 176
    let t5 := { t4 with song_time_ms := setIfUnset t4.song_time_ms songTimeMs }
    let fileSize ← readUInt32 r 316
    .ok { t5 with file_size := setIfUnset t5.file_size fileSize }
  else if bomaSubtype = 0x17 then do
    let playCount ← readUInt32 r 32
    let t1 := { itmaTrack with play_count := setIfUnset itmaTrack.play_count playCount }
    if 0 < playCount then do
      let dlp ← readUInt32 r 28
      .ok { t1 with date_last_played := setIfUnset t1.date_last_played dlp }
    else
      .ok t1
  else
    .ok itmaTrack

/-- Processing, in on-disk order, the track-numerics boma children of one
track: each element is the reader positioned at the start of one boma block
paired with that block's subtype tag. -/
def foldBomaTrackNumerics (t : ItmaTrack) :
    List (BufferReader × Nat) → Except PyErr ItmaTrack
  | [] => .ok t
  | (r, st) :: rest => do
    let t' ← parseBomaTrackNumerics r st t
    foldBomaTrackNumerics t' rest

/-- The numeric track fields filled by `_parse_boma_track_numerics`. -/
inductive NumericsField where
  | bitrate
  | date_added
  | date_modified
  | normalization
  | song_time_ms
  | file_size
  | play_count
  | date_last_played
  deriving DecidableEq, Repr

/-- Projection of a numerics field out of a track record. -/
def NumericsField.get : NumericsField → ItmaTrack → Option Nat
  | .bitrate, t => t.bitrate
  | .date_added, t => t.date_added
  | .date_modified, t => t.date_modified
  | .normalization, t => t.normalization
  | .song_time_ms, t => t.song_time_ms
  | .file_size, t => t.file_size
  | .play_count, t => t.play_count
  | .date_last_played, t => t.date_last_played

/-! ### src/musicdb/library.py — the view layer -/

/-- `library.Track`: the view-layer track.  `datetime` values are
represented by their signed second offset from the 1904 epoch (see
`getDatetime`). -/
structure Track where
  persistent_id : Nat
  id : Nat
  starred : Bool
  rating : Nat
  unchecked : Nat
  date_added : Option Int := none
  date_modified : Option Int := none
  date_last_played : Option Int := none
  play_count : Option Nat := none
  song_time_ms : Option Nat := none
  bitrate : Option Nat := none
  normalization : Option Nat := none
  file_size : Option Nat := none
  metadata : List (String × Option String) := []
  deriving DecidableEq, Repr

/-- `Track.short_rating`: `int(self.rating/100 * 5)`. -/
def Track.short_rating (t : Track) : Nat :=
  pythonShortRating t.rating

/-- `library.Playlist`: the view-layer playlist. -/
structure Playlist where
  name : String
  date_created : Option Int := none
  date_modified : Option Int := none
  is_smart : Bool := false
  is_folder : Bool := false
  persistent_track_ids : List Nat := []
  deriving DecidableEq, Repr

/-- `getattr(boma.type, 'name', None).lower()`: the lower-cased member name
of the container's enum member, from the tables in
src/musicdb/parsing_types.py. -/
def bomaTypeName (cls : BomaCls) (tag : Nat) : Option String :=
  match cls with
  | .wideChar =>
    if tag = 0x2 then some "track_title"
    else if tag = 0x3 then some "album"
    else if tag = 0x4 then some "artist"
    else if tag = 0x5 then some "genre"
    else if tag = 0x6 then some "kind"
    else if tag = 0x8 then some "comment"
    else if tag = 0xC then some "composer"
    else if tag = 0xE then some "grouping_classical"
    else if tag = 0x12 then some "episode_comment"
    else if tag = 0x16 then some "episode_synopsis"
    else if tag = 0x18 then some "series_title"
    else if tag = 0x19 then some "episode_number"
    else if tag = 0x1B then some "album_artist"
    else if tag = 0x1C then some "series_unknown"
    else if tag = 0x1E then some "sort_order_track_name"
    else if tag = 0x1F then some "sort_order_album"
    else if tag = 0x20 then some "sort_order_artist"
    else if tag = 0x21 then some "sort_order_album_artist"
    else if tag = 0x22 then some "sort_order_composer"
    else if tag = 0x2B then some "licensor_copyright"
    else if tag = 0x2E then some "unknown_002e"
    else if tag = 0x33 then some "series_synopsis"
    else if tag = 0x34 then some "flavor_string"
    else if tag = 0x3B then some "email_purchaser"
    else if tag = 0x3C then some "name_purchaser"
    else if tag = 0x3F then some "work_name"
    else if tag = 0x40 then some "movement_name"
    else if tag = 0x43 then some "file_path"
    else if tag = 0xC8 then some "playlist_name"
    else if tag = 0x12C then some "iama_album"
    else if tag = 0x12D then some "iama_album_artist_1"
    else if tag = 0x12E then some "iama_album_artist_2"
    else if tag = 0x190 then some "iama_artist_1"
    else if tag = 0x191 then some "iama_artist_2"
    else if tag = 0x12F then some "series_title_alt"
    else if tag = 0x1F4 then some "hex_string_64x4b_1"
    else if tag = 0x1F8 then some "managed_media_folder"
    else if tag = 0x1FE then some "hex_string_64x4b_2"
    else if tag = 0x2BE then some "song_title_musicdb"
    else if tag = 0x2BF then some "song_artist_musicdb"
    else Option.none
  | .utf8Short =>
    if tag = 0x36 then some "xlm_block_1"
    else if tag = 0x38 then some "xlm_block_2"
    else if tag = 0x192 then some "xlm_artwork"
    else Option.none
  | .utf8Long =>
    if tag = 0xB then some "file_url"
    else if tag = 0x1D then some "xlm_block_1"
    else if tag = 0x2BC then some "xlm_block_3"
    else if tag = 0x3CC then some "xlm_block_4"
    else Option.none
  | .book => if tag = 0x42 then some "book1" else Option.none
  | .video => if tag = 0x24 then some "video" else Option.none

/-- Python `dict` assignment `metadata[name] = value`: an insertion-ordered
map where assigning an existing key updates its value in place. -/
def dictInsert (m : List (String × Option String)) (k : String)
    (v : Option String) : List (String × Option String) :=
  if m.any (fun p => p.1 = k) then
    m.map (fun p => if p.1 = k then (k, v) else p)
  else m ++ [(k, v)]

/-- The metadata loop of `_itma2track`: skip containers without a named
enum member, lower-case the name, optionally drop `xlm_block*` keys, and
assign into the dict. -/
def buildMetadata (bomas : List BomaDataContainer) (ignoreXlmBlock : Bool) :
    List (String × Option String) :=
  bomas.foldl
    (fun m boma =>
      match bomaTypeName boma.cls boma.tag with
      | Option.none => m
      | some name =>
        if ignoreXlmBlock && name.startsWith "xlm_block" then m
        else dictInsert m name boma.value)
    []

/-- `_itma2track`: copy the raw fields, converting every `date_*` field
through `get_datetime`, and flatten the containers into the metadata map. -/
def itma2track (itmaTrack : ItmaTrack) (tzOffset : Int)
    (ignoreXlmBlock : Bool) : Track :=
  { persistent_id := itmaTrack.persistent_id
    id := itmaTrack.id
    starred := itmaTrack.starred
    rating := itmaTrack.rating
    unchecked := itmaTrack.unchecked
    bitrate := itmaTrack.bitrate
    date_added := getDatetime itmaTrack.date_added tzOffset
    date_modified := getDatetime itmaTrack.date_modified tzOffset
    normalization := itmaTrack.normalization
    song_time_ms := itmaTrack.song_time_ms
    file_size := itmaTrack.file_size
    date_last_played := getDatetime itmaTrack.date_last_played tzOffset
    play_count := itmaTrack.play_count
    metadata := buildMetadata itmaTrack.bomas ignoreXlmBlock }

/-- `get_tracks`: find the first track-master section (`ValueError` when
none), assert its payload is a non-empty list of `ItmaTrack` (any other
payload shape, the `None` payload, or an empty list fails the asserts),
then map every raw track through `_itma2track`. -/
def getTracks (rawLibrary : RawLibrary) (ignoreXlmBlock : Bool := true) :
    Except PyErr (List Track) :=
  match rawLibrary.sections.find? (fun s => s.section_type = 1) with
  | Option.none => .error .valueError
  | some sec =>
    match sec.sub_section with
    | .tracks (t :: ts) =>
      .ok ((t :: ts).map
        (fun it => itma2track it rawLibrary.tz_offset ignoreXlmBlock))
    | _ => .error .assertionError

/-- `_lpma2playlist`: take the first container tagged `PLAYLIST_NAME`
(0xC8); with no such container, or a non-string value, return `None`
(the playlist is dropped); otherwise build the view playlist. -/
def lpma2playlist (lpmaPlaylist : LpmaPlaylist) (tzOffset : Int) :
    Option Playlist :=
  match lpmaPlaylist.bomas.find? (fun b => b.tag = 0xC8) with
  | Option.none => Option.none
  | some b =>
    match b.value with
    | Option.none => Option.none
    | some name =>
      some
        { name := name
          date_created := getDatetime (some lpmaPlaylist.date_created) tzOffset
          date_modified := getDatetime (some lpmaPlaylist.date_modified) tzOffset
          is_smart := lpmaPlaylist.is_smart
          is_folder := lpmaPlaylist.is_folder
          persistent_track_ids := lpmaPlaylist.persistent_track_ids }

/-- `get_playlists`: find the first playlist-master section (`ValueError`
when none), assert a non-empty list payload of `LpmaPlaylist`, then keep
the playlists `_lpma2playlist` accepts (a `None` result is silently
dropped). -/
def getPlaylists (rawLibrary : RawLibrary) : Except PyErr (List Playlist) :=
  match rawLibrary.sections.find? (fun s => s.section_type = 2) with
  | Option.none => .error .valueError
  | some sec =>
    match sec.sub_section with
    | .playlists (p :: ps) =>
      .ok ((p :: ps).filterMap (fun lp => lpma2playlist lp rawLibrary.tz_offset))
    | _ => .error .assertionError

/-- The scan inside `get_library_location`: the first container tagged
`MANAGED_MEDIA_FOLDER` (0x1F8) decides the result — its value must be a
string (`assert`), which is URL-unescaped and optionally stripped of the
`file://localhost/` prefix; with no such container the function raises
`ValueError`. -/
def findMediaFolder (bomas : List BomaDataContainer)
    (includeFilePrefix : Bool) : Except PyErr String :=
  match bomas with
  | [] => .error .valueError
  | b :: rest =>
    if b.tag = 0x1F8 then
      match b.value with
      | Option.none => .error .assertionError
      | some v =>
        let path := pyUnquote v
        .ok (if includeFilePrefix then path
             else removePrefixStr path "file://localhost/")
    else findMediaFolder rest includeFilePrefix

/-- `get_library_location`: find the first library-master section
(`ValueError` when none), assert a non-empty list payload of containers,
then scan for the managed-media-folder container. -/
def getLibraryLocation (rawLibrary : RawLibrary)
    (includeFilePrefix : Bool := false) : Except PyErr String :=
  match rawLibrary.sections.find? (fun s => s.section_type = 6) with
  | Option.none => .error .valueError
  | some sec =>
    match sec.sub_section with
    | .bomas (b :: bs) => findMediaFolder (b :: bs) includeFilePrefix
    | _ => .error .assertionError

/-! ### src/musicdb/parsing.py — the byte-level section engine

The decryption (AES-128-ECB via the `cryptography` package) and the zlib
inflation act before structural parsing and are external library calls;
the embedding starts from the decompressed buffer, on which all the
structural code of `parsing.py` operates. -/

/-- `b'hsma'`. -/
def hsmaSig : List Nat := [0x68, 0x73, 0x6D, 0x61]
/-- `b'hfma'`. -/
def hfmaSig : List Nat := [0x68, 0x66, 0x6D, 0x61]
/-- `b'boma'`. -/
def bomaSig : List Nat := [0x62, 0x6F, 0x6D, 0x61]
/-- `b'ltma'`. -/
def ltmaSig : List Nat := [0x6C, 0x74, 0x6D, 0x61]
/-- `b'itma'`. -/
def itmaSig : List Nat := [0x69, 0x74, 0x6D, 0x61]
/-- `b'lPma'` (playlist master). -/
def lPmaSig : List Nat := [0x6C, 0x50, 0x6D, 0x61]
/-- `b'lpma'` (playlist item). -/
def lpmaSig : List Nat := [0x6C, 0x70, 0x6D, 0x61]
/-- `b'lama'`. -/
def lamaSig : List Nat := [0x6C, 0x61, 0x6D, 0x61]
/-- `b'iama'`. -/
def iamaSig : List Nat := [0x69, 0x61, 0x6D, 0x61]
/-- `b'lAma'`. -/
def lAmaSig : List Nat := [0x6C, 0x41, 0x6D, 0x61]
/-- `b'iAma'`. -/
def iAmaSig : List Nat := [0x69, 0x41, 0x6D, 0x61]
/-- `b'plma'`. -/
def plmaSig : List Nat := [0x70, 0x6C, 0x6D, 0x61]
/-- `b'book'`. -/
def bookSig : List Nat := [0x62, 0x6F, 0x6F, 0x6B]

/-- `_parse_boma`: decode one typed container and advance past it.  The
subtype dispatch follows the source's `if/elif` chain; the branch for
`IPFA_PLAYLIST` compares against `parsing_types.BomaOtherType.IPFA_PLAYLIST`,
a member that does not exist in `BomaOtherType` (it lives in
`BomaPlaylistType`), so every subtype that reaches that line — the video,
playlist-membership, track-numerics and unknown subtypes — raises
`AttributeError`; the branches after it (lines 160–175 of parsing.py) are
unreachable and the functions they would call are modelled separately. -/
def parseBoma (r : BufferReader) :
    Except PyErr (Option BomaDataContainer × BufferReader) := do
  let (header, _innerLen, sectionLen, bomaSubtype) ← read4sIII r
  let _ ← checkSignature header bomaSig
  let container ←
    if bomaWideCharValues.contains bomaSubtype then do
      let stringLen ← readUInt32 r 24
      let data := utf16DecodeReplace (readBytes r 36 (some stringLen))
      pure (some (⟨.wideChar, bomaSubtype, some data⟩ : BomaDataContainer))
    else if bomaUtf8ShortValues.contains bomaSubtype then
      pure (some (⟨.utf8Short, bomaSubtype,
        some (utf8DecodeReplace (readBytes r 20 (some (sectionLen - 20))))⟩ :
          BomaDataContainer))
    else if bomaUtf8LongValues.contains bomaSubtype then do
      let stringLen ← readUInt32 r 24
      let data := utf8DecodeReplace (readBytes r 36 (some stringLen))
      pure (some (⟨.utf8Long, bomaSubtype, some data⟩ : BomaDataContainer))
    else if bomaBookValues.contains bomaSubtype then do
      let signature := readBytes r 20 (some 4)
      let _ ← checkSignature signature bookSig
      pure (some (⟨.book, bomaSubtype, Option.none⟩ : BomaDataContainer))
    else
      .error .attributeError
  .ok (container, advanceNat r sectionLen)

/-- The `for _ in range(num_boma)` loops: parse that many containers,
keeping the ones the handler returns. -/
def bomaLoop : Nat → BufferReader →
    Except PyErr (List BomaDataContainer × BufferReader)
  | 0, r => .ok ([], r)
  | n + 1, r => do
    let (c, r') ← parseBoma r
    let (cs, r'') ← bomaLoop n r'
    match c with
    | some c => .ok (c :: cs, r'')
    | Option.none => .ok (cs, r'')

/-- `_parse_iama_item`: one album/artist item and its containers, with the
declared-end check. -/
def parseIamaItem (expectedHeader : List Nat) (r : BufferReader) :
    Except PyErr (List BomaDataContainer × BufferReader) := do
  let (header, sectionLen, sectionsLen, numBoma) ← read4sIII r
  let _ ← checkSignature header expectedHeader
  let expectedEndPos := r.pos + sectionsLen
  let r := advanceNat r sectionLen
  let (bomas, r) ← bomaLoop numBoma r
  if r.pos ≠ expectedEndPos then .error .posMismatch
  else .ok (bomas, r)

/-- `_parse_itma_track`: one raw track.  The `boma` children are parsed
with the track as mutation context, but the mutating branches of
`_parse_boma` are unreachable (see `parseBoma`), so only containers are
collected. -/
def parseItmaTrack (r : BufferReader) :
    Except PyErr (ItmaTrack × BufferReader) := do
  let (header, sectionLen, _x, numBoma, trackPersistentId, trackId) ←
    read4sIIIQI r
  let _ ← checkSignature header itmaSig
  let unchecked ← readUInt16 r 42
  let starredVal ← readUInt16 r 62
  let rating ← readUInt8 r 65
  let r := advanceNat r sectionLen
  let itmaTrack : ItmaTrack :=
    { persistent_id := trackPersistentId
      id := trackId
      starred := starredVal = 2
      rating := rating
      unchecked := unchecked }
  let (bomas, r) ← bomaLoop numBoma r
  .ok ({ itmaTrack with bomas := bomas }, r)

/-- The `for _ in range(num_itma)` loop (every parsed track is truthy and
kept). -/
def itmaLoop : Nat → BufferReader →
    Except PyErr (List ItmaTrack × BufferReader)
  | 0, r => .ok ([], r)
  | n + 1, r => do
    let (t, r') ← parseItmaTrack r
    let (ts, r'') ← itmaLoop n r'
    .ok (t :: ts, r'')

/-- `_parse_ltma_track_master`: list header then `num_itma` track items. -/
def parseLtmaTrackMaster (r : BufferReader) :
    Except PyErr (List ItmaTrack × BufferReader) := do
  let (header, sectionLen, numItma) ← read4sII r
  let _ ← checkSignature header ltmaSig
  let r := advanceNat r sectionLen
  itmaLoop numItma r

/-- `_parse_lpma_item`: one raw playlist and its containers. -/
def parseLpmaItem (r : BufferReader) :
    Except PyErr (LpmaPlaylist × BufferReader) := do
  let (header, sectionLen, _sectionsLen, numBoma, numTracks) ← read4sIIII r
  let _ ← checkSignature header lpmaSig
  let persistentId ← readUInt64 r 39
  let dateCreated ← readUInt32 r 22
  let dateModified ← readUInt32 r 138
  let lpmaPlaylist : LpmaPlaylist :=
    { persistent_id := persistentId
      date_created := dateCreated
      date_modified := dateModified
      num_tracks := numTracks }
  let r := advanceNat r sectionLen
  let (bomas, r) ← bomaLoop numBoma r
  .ok ({ lpmaPlaylist with bomas := bomas }, r)

/-- The `for _ in range(num_lpma)` loop (every parsed playlist is truthy
and kept). -/
def lpmaLoop : Nat → BufferReader →
    Except PyErr (List LpmaPlaylist × BufferReader)
  | 0, r => .ok ([], r)
  | n + 1, r => do
    let (p, r') ← parseLpmaItem r
    let (ps, r'') ← lpmaLoop n r'
    .ok (p :: ps, r'')

/-- `_parse_lpma_playlists`: list header then `num_lpma` playlist items. -/
def parseLpmaPlaylists (r : BufferReader) :
    Except PyErr (List LpmaPlaylist × BufferReader) := do
  let (header, sectionLen, numLpma) ← read4sII r
  let _ ← checkSignature header lPmaSig
  let r := advanceNat r sectionLen
  lpmaLoop numLpma r

/-- The `for _ in range(num_iama)` loop: an item whose container list is
empty is falsy in Python and therefore dropped. -/
def iamaLoop (expectedIamaHeader : List Nat) :
    Nat → BufferReader →
    Except PyErr (List (List BomaDataContainer) × BufferReader)
  | 0, r => .ok ([], r)
  | n + 1, r => do
    let (item, r') ← parseIamaItem expectedIamaHeader r
    let (items, r'') ← iamaLoop expectedIamaHeader n r'
    if item.isEmpty then .ok (items, r'')
    else .ok (item :: items, r'')

/-- `_parse_lama_album_artist`: list header then `num_iama` items. -/
def parseLamaAlbumArtist (expectedHeader expectedIamaHeader : List Nat)
    (r : BufferReader) :
    Except PyErr (List (List BomaDataContainer) × BufferReader) := do
  let (header, sectionLen, numIama) ← read4sII r
  let _ ← checkSignature header expectedHeader
  let r := advanceNat r sectionLen
  iamaLoop expectedIamaHeader numIama r

/-- `_parse_plma_library`: list header then `num_boma` containers; the
Python function returns `bomas or None`, i.e. `None` for an empty list. -/
def parsePlmaLibrary (r : BufferReader) :
    Except PyErr (SubSection × BufferReader) := do
  let (header, sectionLen, numBoma) ← read4sII r
  let _ ← checkSignature header plmaSig
  let r := advanceNat r sectionLen
  let (bomas, r) ← bomaLoop numBoma r
  if bomas.isEmpty then .ok (SubSection.none, r)
  else .ok (SubSection.bomas bomas, r)

/-- `_parse_hsma`: one top-level section.  The dispatch is Python's
`match section_type` with cases for the seven `SectionType` members only; a
type outside the enumeration matches no case, leaves the cursor where the
`next_section_offset` advance put it, and then fails — either the
expected-end check or, when the lengths happen to agree, the
`SectionType(section_type)` conversion. -/
def parseHsma (r : BufferReader) : Except PyErr (Hsma × BufferReader) := do
  let (header, nextSectionOffset, sectionLen, sectionType) ← read4sIII r
  let _ ← checkSignature header hsmaSig
  let expectedEndPos := r.pos + sectionLen
  let r := advanceNat r nextSectionOffset
  let (subSection, r) ←
    if sectionType = 1 then do
      let (ts, r') ← parseLtmaTrackMaster r
      pure (SubSection.tracks ts, r')
    else if sectionType = 2 then do
      let (ps, r') ← parseLpmaPlaylists r
      pure (SubSection.playlists ps, r')
    else if sectionType = 3 then do
      let header2 := readBytes r 0 (some 4)
      let _ ← checkSignature header2 hfmaSig
      pure (SubSection.none, advanceInt r ((sectionLen : Int) - (nextSectionOffset : Int)))
    else if sectionType = 4 then do
      let (ls, r') ← parseLamaAlbumArtist lamaSig iamaSig r
      pure (SubSection.bomaLists ls, r')
    else if sectionType = 5 then do
      let (ls, r') ← parseLamaAlbumArtist lAmaSig iAmaSig r
      pure (SubSection.bomaLists ls, r')
    else if sectionType = 6 then do
      let (s, r') ← parsePlmaLibrary r
      pure (s, r')
    else if sectionType = 17 then
      pure (SubSection.none, advanceInt r ((sectionLen : Int) - (nextSectionOffset : Int)))
    else
      pure (SubSection.none, r)
  if r.pos ≠ expectedEndPos then .error .posMismatch
  else if sectionTypeValues.contains sectionType then
    .ok ({ section_type := sectionType, sub_section := subSection }, r)
  else .error .enumValueError

/-- The `while reader.pos < len(decompressed_buffer)` section loop of
`parse_library`, fuel-bounded (a zero-length section would loop forever in
Python; that shows up as `fuelExhausted`). -/
def parseSections : Nat → BufferReader →
    Except PyErr (List Hsma × BufferReader)
  | 0, r => if r.pos < r.data.length then .error .fuelExhausted else .ok ([], r)
  | fuel + 1, r =>
    if r.pos < r.data.length then do
      let (h, r') ← parseHsma r
      let (hs, r'') ← parseSections fuel r'
      .ok (h :: hs, r'')
    else .ok ([], r)

/-! ### src/itl/parsing_types.py and src/itl/parsing.py — the itl engine

As for musicdb, the embedding starts from the decompressed buffer; the
outer file header, decryption and inflation are upstream of all the
structural code modelled here. -/

namespace Itl

/-- The values of `BlockType` (msdh block types). -/
def blockTypeValues : List Nat := [1, 2, 3, 4, 9, 11, 12, 13, 14, 15, 16, 19, 20, 21, 23]

/-- The block types handled by a case of the `match` in `_itlp_parse_msdh`.
Note that the enumeration members `BINARY_UNK` (3) and `XLM` (19) have no
case: they fall to `case _` and raise like a value outside the
enumeration. -/
def handledBlockTypes : List Nat := [11, 13, 1, 16, 9, 12, 14, 2, 4, 15, 21, 23, 20]

/-- The values of `MhohFlexType` (including the alias members, which share
values already listed). -/
def mhohFlexValues : List Nat :=
  [0x02, 0x03, 0x04, 0x05, 0x06, 0x08, 0x09, 0x0B, 0x0C, 0x0D, 0x0E, 0x12,
   0x16, 0x18, 0x19, 0x1B, 0x1C, 0x1D, 0x1E, 0x1F, 0x20, 0x21, 0x22, 0x25,
   0x2B, 0x2E, 0x33, 0x34, 0x39, 0x3A, 0x3B, 0x3C, 0x3F, 0x40, 0x64, 0xC8,
   0x12C, 0x12D, 0x12E, 0x130, 0x131, 0x190, 0x191, 0x1F8, 0x1F9, 0x1FA,
   0x1FC, 0x2BE, 0x2BF]

/-- The values of `MhohNarrowType`. -/
def mhohNarrowValues : List Nat :=
  [0x13, 0x36, 0x38, 0x6D, 0x192, 0x202, 0x2BC, 0x320]

/-- Which `IntEnum` class a stored `MhohDataContainer.type` member belongs
to. -/
inductive MhohCls where
  | flex
  | narrow
  | other
  deriving DecidableEq, Repr

/-- `MhohDataContainer`. -/
structure MhohDataContainer where
  cls : MhohCls
  tag : Nat
  value : Option String
  deriving DecidableEq, Repr

/-- `MithTrack`: a raw itl track. -/
structure MithTrack where
  persistent_id : Nat
  id : Nat
  date_added : Nat
  date_modified : Nat
  date_last_played : Nat
  play_count : Nat
  rating : Nat
  unchecked : Nat
  mhohs : List MhohDataContainer
  deriving DecidableEq, Repr

/-- `MhghLibrarySettings`; `list_size` is a `ListSize` member, i.e. one of
1, 2, 3 (checked at construction). -/
structure MhghLibrarySettings where
  list_size : Nat
  mhohs : List MhohDataContainer
  deriving DecidableEq, Repr

/-- `MiphPlaylist`: a raw itl playlist. -/
structure MiphPlaylist where
  persistent_id : Nat
  id : Nat
  distinguished_kind : Nat
  mhohs : List MhohDataContainer
  identifiers : List Nat
  deriving DecidableEq, Repr

/-- The shapes of `Msdh.sub_block`. -/
inductive SubBlock where
  | str (s : String)
  | mhohLists (l : List (List MhohDataContainer))
  | tracks (l : List MithTrack)
  | playlists (l : List MiphPlaylist)
  | settings (s : MhghLibrarySettings)
  | none
  deriving DecidableEq, Repr

/-- `Msdh`: a parsed top-level itl block. -/
structure Msdh where
  block_type : Nat
  sub_block : SubBlock
  deriving DecidableEq, Repr

/-- `b'msdh'`. -/
def msdhSig : List Nat := [0x6D, 0x73, 0x64, 0x68]
/-- `b'mfdh'`. -/
def mfdhSig : List Nat := [0x6D, 0x66, 0x64, 0x68]
/-- `b'mhoh'`. -/
def mhohSig : List Nat := [0x6D, 0x68, 0x6F, 0x68]
/-- `b'mhgh'`. -/
def mhghSig : List Nat := [0x6D, 0x68, 0x67, 0x68]
/-- `b'mlth'`. -/
def mlthSig : List Nat := [0x6D, 0x6C, 0x74, 0x68]
/-- `b'mith'`. -/
def mithSig : List Nat := [0x6D, 0x69, 0x74, 0x68]
/-- `b'mlph'`. -/
def mlphSig : List Nat := [0x6D, 0x6C, 0x70, 0x68]
/-- `b'miph'`. -/
def miphSig : List Nat := [0x6D, 0x69, 0x70, 0x68]
/-- `b'mtph'`. -/
def mtphSig : List Nat := [0x6D, 0x74, 0x70, 0x68]
/-- `b'mlah'`. -/
def mlahSig : List Nat := [0x6D, 0x6C, 0x61, 0x68]
/-- `b'mlih'`. -/
def mlihSig : List Nat := [0x6D, 0x6C, 0x69, 0x68]
/-- `b'miih'`. -/
def miihSig : List Nat := [0x6D, 0x69, 0x69, 0x68]

/-- `_itlp_parse_mhoh`: decode one typed container and advance past it.
In the flex branch the `StringType(string_type)` conversion raises for a
word outside 0..3; the BOOK branch prints a TODO and leaves the container
`None`; unknown subtypes fall through with a `None` container. -/
def parseMhoh (r : BufferReader) :
    Except PyErr (Option MhohDataContainer × BufferReader) := do
  let (header, _hlen, sectionLen, mhohSubtype) ← read4sIII r
  let _ ← checkSignature header mhohSig
  let container ←
    if mhohFlexValues.contains mhohSubtype then do
      let (stringType, stringLen) ← readII r 24
      let data := readBytes r 40 (some stringLen)
      if stringType = 0 ∨ stringType = 2 ∨ stringType = 3 then
        pure (some (⟨.flex, mhohSubtype, some (utf8DecodeReplace data)⟩ :
          MhohDataContainer))
      else if stringType = 1 then
        pure (some (⟨.flex, mhohSubtype, some (utf16DecodeReplace data)⟩ :
          MhohDataContainer))
      else .error .enumValueError
    else if mhohNarrowValues.contains mhohSubtype then
      pure (some (⟨.narrow, mhohSubtype,
        some (utf8DecodeReplace (readBytes r 24 (some (sectionLen - 24))))⟩ :
          MhohDataContainer))
    else if mhohSubtype = 0x42 then
      pure Option.none
    else if mhohSubtype = 0x24 then do
      let (vertical, horizontal) ← readII r 24
      pure (some (⟨.other, 0x24,
        some (toString vertical ++ "x" ++ toString horizontal)⟩ :
          MhohDataContainer))
    else
      pure Option.none
  .ok (container, advanceNat r sectionLen)

/-- The `for _ in range(num_mhoh)` loops: keep the containers the handler
returns. -/
def mhohLoop : Nat → BufferReader →
    Except PyErr (List MhohDataContainer × BufferReader)
  | 0, r => .ok ([], r)
  | n + 1, r => do
    let (c, r') ← parseMhoh r
    let (cs, r'') ← mhohLoop n r'
    match c with
    | some c => .ok (c :: cs, r'')
    | Option.none => .ok (cs, r'')

/-- `_parse_outer_envelope` (`mfdh`): the application version string. -/
def parseOuterEnvelope (r : BufferReader) :
    Except PyErr (String × BufferReader) := do
  let (header, headerLen) ← read4sI r
  let _ ← checkSignature header mfdhSig
  let versionStrLen ← readUInt8 r 16
  let applicationVersion := readBytes r 17 (some versionStrLen)
  .ok (utf8DecodeReplace applicationVersion, advanceNat r headerLen)

/-- `_parse_library_info` (`mhgh`): the display size plus the embedded
containers; `ListSize(list_size)` raises for a value outside 1..3. -/
def parseLibraryInfo (r : BufferReader) :
    Except PyErr (MhghLibrarySettings × BufferReader) := do
  let (header, headerLen, numMhoh) ← read4sII r
  let _ ← checkSignature header mhghSig
  let listSize ← readUInt8 r 55
  let r := advanceNat r headerLen
  let (mhohs, r) ← mhohLoop numMhoh r
  if listSize = 1 ∨ listSize = 2 ∨ listSize = 3 then
    .ok ({ list_size := listSize, mhohs := mhohs }, r)
  else .error .enumValueError

/-- `_parse_library_location`: the whole block re-read as a string blob
(the caller rewinds to the `msdh` magic first). -/
def parseLibraryLocation (r : BufferReader) :
    Except PyErr (String × BufferReader) := do
  let (header, headerLen, totalLen) ← read4sII r
  let _ ← checkSignature header msdhSig
  let stringLen := totalLen - headerLen
  let r := advanceNat r headerLen
  let data := readBytes r 0 (some stringLen)
  .ok (utf8DecodeReplace data, advanceNat r stringLen)

/-- `_itlp_parse_mith`: one raw track, with the declared-end check. -/
def parseMith (r : BufferReader) :
    Except PyErr (MithTrack × BufferReader) := do
  let (header, headerLen, dataLen, numMhohs, trackId) ← read4sIIII r
  let _ ← checkSignature header mithSig
  let expectedEndPos := r.pos + dataLen
  let dateModified ← readUInt32 r 32
  let playCount ← readUInt32 r 76
  let dateLastPlayed ← readUInt32 r 100
  let rating ← readUInt8 r 108
  let unchecked ← readUInt8 r 110
  let dateAdded ← readUInt32 r 120
  let persistentId ← readUInt64 r 128
  let r := advanceNat r headerLen
  let (mhohs, r) ← mhohLoop numMhohs r
  if r.pos ≠ expectedEndPos then .error .posMismatch
  else
    .ok ({ persistent_id := persistentId
           id := trackId
           date_added := dateAdded
           date_modified := dateModified
           date_last_played := dateLastPlayed
           play_count := playCount
           rating := rating
           unchecked := unchecked
           mhohs := mhohs }, r)

/-- The `for _ in range(num_mith)` loop (each parsed track appended
unconditionally). -/
def mithLoop : Nat → BufferReader →
    Except PyErr (List MithTrack × BufferReader)
  | 0, r => .ok ([], r)
  | n + 1, r => do
    let (t, r') ← parseMith r
    let (ts, r'') ← mithLoop n r'
    .ok (t :: ts, r'')

/-- `_itlp_parse_track` (`mlth`): list header then `num_mith` items. -/
def parseTrack (r : BufferReader) :
    Except PyErr (List MithTrack × BufferReader) := do
  let (header, headerLen, numMith) ← read4sII r
  let _ ← checkSignature header mlthSig
  let r := advanceNat r headerLen
  mithLoop numMith r

/-- `_itlp_parse_mtph`: one playlist-membership entry, yielding the track
identifier at offset 24. -/
def parseMtph (r : BufferReader) : Except PyErr (Nat × BufferReader) := do
  let (header, headerLen) ← read4sI r
  let _ ← checkSignature header mtphSig
  let identifier ← readUInt32 r 24
  .ok (identifier, advanceNat r headerLen)

/-- The `while len(mtphs) < num_mtph` scan of `_itlp_parse_miph`: an
`mtph` tag is parsed and fills a slot; an `mhoh` tag is skipped by its
section length at offset 8 without consuming a slot; any other tag is
logged and skipped by the length at offset 4.  The loop is unbounded in
Python (fuel exhaustion marks divergence). -/
def mtphScan : Nat → BufferReader → Nat → List Nat →
    Except PyErr (List Nat × BufferReader)
  | 0, _, _, _ => .error .fuelExhausted
  | fuel + 1, r, numMtph, mtphs =>
    if mtphs.length < numMtph then
      let header := readBytes r 0 (some 4)
      if header = mtphSig then do
        let (identifier, r') ← parseMtph r
        mtphScan fuel r' numMtph (mtphs ++ [identifier])
      else if header = mhohSig then do
        let sectionLen ← readUInt32 r 8
        mtphScan fuel (advanceNat r sectionLen) numMtph mtphs
      else do
        let mtphHeaderLen ← readUInt32 r 4
        mtphScan fuel (advanceNat r mtphHeaderLen) numMtph mtphs
    else .ok (mtphs, r)

/-- `_itlp_parse_miph`: one playlist block.  After the scan the cursor
must sit at the declared end; a playlist whose identifier list is empty is
returned as `None` (and hence dropped by the caller). -/
def parseMiph (fuel : Nat) (r : BufferReader) :
    Except PyErr (Option MiphPlaylist × BufferReader) := do
  let (header, headerLen, dataLen, numMhoh, numMtph) ← read4sIIII r
  let _ ← checkSignature header miphSig
  let expectedEndPos := r.pos + dataLen
  let persistentId ← readUInt64 r 440
  let distinguishedKind ← readUInt16 r 570
  let playlistId ← readUInt32 r 3392
  let r := advanceNat r headerLen
  let (mhohs, r) ← mhohLoop numMhoh r
  let (mtphs, r) ← mtphScan fuel r numMtph []
  if r.pos ≠ expectedEndPos then .error .posMismatch
  else if mtphs.isEmpty then .ok (Option.none, r)
  else
    .ok (some { persistent_id := persistentId
                id := playlistId
                distinguished_kind := distinguishedKind
                mhohs := mhohs
                identifiers := mtphs }, r)

/-- The `for _ in range(num_miph)` loop: a `None` playlist is dropped. -/
def miphLoop (fuel : Nat) : Nat → BufferReader →
    Except PyErr (List MiphPlaylist × BufferReader)
  | 0, r => .ok ([], r)
  | n + 1, r => do
    let (p, r') ← parseMiph fuel r
    let (ps, r'') ← miphLoop fuel n r'
    match p with
    | some p => .ok (p :: ps, r'')
    | Option.none => .ok (ps, r'')

/-- `_itlp_parse_playlist` (`mlph`): list header then `num_miph` items. -/
def parsePlaylist (fuel : Nat) (r : BufferReader) :
    Except PyErr (List MiphPlaylist × BufferReader) := do
  let (header, headerLen, numMiph) ← read4sII r
  let _ ← checkSignature header mlphSig
  let r := advanceNat r headerLen
  miphLoop fuel numMiph r

/-- `_itlp_parse_miah`: one album item (no signature check in the
source). -/
def parseMiah (r : BufferReader) :
    Except PyErr (List MhohDataContainer × BufferReader) := do
  let headerLen ← readUInt32 r 4
  let numMhoh ← readUInt32 r 12
  let r := advanceNat r headerLen
  mhohLoop numMhoh r

/-- The `for _ in range(num_miah)` loop: an item with an empty container
list is falsy and dropped. -/
def miahLoop : Nat → BufferReader →
    Except PyErr (List (List MhohDataContainer) × BufferReader)
  | 0, r => .ok ([], r)
  | n + 1, r => do
    let (item, r') ← parseMiah r
    let (items, r'') ← miahLoop n r'
    if item.isEmpty then .ok (items, r'')
    else .ok (item :: items, r'')

/-- `_parse_album_collection` (`mlah`). -/
def parseAlbumCollection (r : BufferReader) :
    Except PyErr (List (List MhohDataContainer) × BufferReader) := do
  let (header, headerLen, numMiah) ← read4sII r
  let _ ← checkSignature header mlahSig
  let r := advanceNat r headerLen
  miahLoop numMiah r

/-- `_itlp_parse_miih`: one artist item. -/
def parseMiih (r : BufferReader) :
    Except PyErr (List MhohDataContainer × BufferReader) := do
  let (header, headerLen, _x, numMhoh) ← read4sIII r
  let _ ← checkSignature header miihSig
  let r := advanceNat r headerLen
  mhohLoop numMhoh r

/-- The `for _ in range(num_miih)` loop (items appended unconditionally,
unlike albums). -/
def miihLoop : Nat → BufferReader →
    Except PyErr (List (List MhohDataContainer) × BufferReader)
  | 0, r => .ok ([], r)
  | n + 1, r => do
    let (item, r') ← parseMiih r
    let (items, r'') ← miihLoop n r'
    .ok (item :: items, r'')

/-- `_itlp_parse_artist` (`mlih`). -/
def parseArtist (r : BufferReader) :
    Except PyErr (List (List MhohDataContainer) × BufferReader) := do
  let (header, headerLen, numMiih) ← read4sII r
  let _ ← checkSignature header mlihSig
  let r := advanceNat r headerLen
  miihLoop numMiih r

/-- `_itlp_parse_msdh`: one top-level itl block.  The dispatch follows the
source's `match block_type` case order; a type with no case — which
includes the enumeration members `BINARY_UNK` (3) and `XLM` (19) as well as
every value outside the enumeration — raises
`ValueError('Unknown msdh block type: ...')`. -/
def parseMsdh (fuel : Nat) (r : BufferReader) :
    Except PyErr (Msdh × BufferReader) := do
  let (header, headerLen, dataLen, blockType) ← read4sIII r
  let _ ← checkSignature header msdhSig
  let r := advanceNat r headerLen
  let (subBlock, r) ←
    if blockType = 11 then do
      let (l, r') ← parseArtist r
      pure (SubBlock.mhohLists l, r')
    else if blockType = 13 ∨ blockType = 1 then do
      let (l, r') ← parseTrack r
      pure (SubBlock.tracks l, r')
    else if blockType = 16 then do
      let (s, r') ← parseOuterEnvelope r
      pure (SubBlock.str s, r')
    else if blockType = 9 then do
      let (l, r') ← parseAlbumCollection r
      pure (SubBlock.mhohLists l, r')
    else if blockType = 12 then do
      let (s, r') ← parseLibraryInfo r
      pure (SubBlock.settings s, r')
    else if blockType = 14 ∨ blockType = 2 then do
      let (l, r') ← parsePlaylist fuel r
      pure (SubBlock.playlists l, r')
    else if blockType = 4 then do
      let r := advanceInt r (-(headerLen : Int))
      let (s, r') ← parseLibraryLocation r
      pure (SubBlock.str s, r')
    else if blockType = 15 ∨ blockType = 21 ∨ blockType = 23 ∨ blockType = 20 then
      pure (SubBlock.none, advanceInt r ((dataLen : Int) - (headerLen : Int)))
    else
      .error .unknownBlockType
  .ok ({ block_type := blockType, sub_block := subBlock }, r)

end Itl

/-! ### Concrete fixtures used by the claim theorems -/

/-- Little-endian 4-byte encoding of `n` (for `n < 2^32` it is the exact
`struct.pack('<I', n)` image). -/
def le32 (n : Nat) : List Nat :=
  [n % 256, n / 256 % 256, n / 256 ^ 2 % 256, n / 256 ^ 3 % 256]

/-- A library whose `plma` section holds one `MANAGED_MEDIA_FOLDER`
container with the spec's example URL. -/
def c2lib : RawLibrary :=
  { version := "1.0"
    date := 0
    tz_offset := 0
    sections :=
      [{ section_type := 6
         sub_section := .bomas
           [⟨.wideChar, 0x1F8, some "file://localhost/Users/me/Music/"⟩] }] }

/-- A freshly constructed track (both numerics-2 fields still unset), as
`_parse_itma_track` builds it before the boma children run. -/
def c4freshTrack : ItmaTrack :=
  { persistent_id := 0, id := 0, starred := false, rating := 0, unchecked := 0 }

/-- A raw track with rating 100. -/
def c6track100 : ItmaTrack :=
  { persistent_id := 0, id := 0, starred := false, rating := 100, unchecked := 0 }

/-- A raw track with rating 0. -/
def c6track0 : ItmaTrack :=
  { persistent_id := 0, id := 0, starred := false, rating := 0, unchecked := 0 }

/-- A view-layer track with rating 50. -/
def c6view50 : Track :=
  { persistent_id := 0, id := 0, starred := false, rating := 50, unchecked := 0 }

/-- A numerics-2 boma whose stored play count (u32 at offset 32) is 0. -/
def c4bomaZero : BufferReader := ⟨List.replicate 36 0, 0⟩

/-- A numerics-2 boma whose stored `date_last_played` (offset 28) is 1234
and whose stored play count (offset 32) is 5. -/
def c4bomaPos : BufferReader :=
  ⟨List.replicate 28 0 ++ [210, 4, 0, 0] ++ [5, 0, 0, 0], 0⟩

/-- A raw playlist whose only container is a `PLAYLIST_NAME` with the empty
string as value (as a zero-length wide-char boma decodes to). -/
def c5emptyNamePlaylist : LpmaPlaylist :=
  { persistent_id := 1, date_created := 0, date_modified := 0, num_tracks := 0
    bomas := [⟨.wideChar, 0xC8, some ""⟩] }

/-- A library whose playlist-master section holds only
`c5emptyNamePlaylist`. -/
def c5lib : RawLibrary :=
  { version := "1.0", date := 0, tz_offset := 0
    sections := [{ section_type := 2
                   sub_section := .playlists [c5emptyNamePlaylist] }] }

/-- A raw playlist with no `PLAYLIST_NAME` container at all (its only
container is a book, whose value is `None`). -/
def c5noNamePlaylist : LpmaPlaylist :=
  { persistent_id := 2, date_created := 0, date_modified := 0, num_tracks := 0
    bomas := [⟨.book, 0x42, Option.none⟩] }

/-- A track that already has `bitrate` set (to 7) before any numerics
container runs. -/
def c7track : ItmaTrack :=
  { persistent_id := 0, id := 0, starred := false, rating := 0, unchecked := 0
    bitrate := some 7 }

/-- A numerics-1 boma block of 320 zero bytes (all six fields read 0). -/
def c7boma : BufferReader := ⟨List.replicate 320 0, 0⟩

/-- `c7track` after the all-zero numerics-1 container: `bitrate` keeps its
first-written value 7, the unset fields are filled with 0. -/
def c7result : ItmaTrack :=
  { persistent_id := 0, id := 0, starred := false, rating := 0, unchecked := 0
    bitrate := some 7, date_added := some 0, date_modified := some 0
    normalization := some 0, song_time_ms := some 0, file_size := some 0 }

/-- A decompressed musicdb buffer holding exactly one hsma section of type
1 (track master) whose `ltma` list header declares `num_itma = 0`. -/
def c8buf : List Nat :=
  [0x68, 0x73, 0x6D, 0x61] ++ le32 16 ++ le32 28 ++ le32 1 ++
  [0x6C, 0x74, 0x6D, 0x61] ++ le32 12 ++ le32 0

/-- The `ltma` block of `c8buf` on its own. -/
def c8ltmaBytes : List Nat := [0x6C, 0x74, 0x6D, 0x61] ++ le32 12 ++ le32 0

/-- The library `c8buf` parses to: one track-master section with an empty
track list. -/
def c8lib : RawLibrary :=
  { version := "1.0", date := 0, tz_offset := 0
    sections := [{ section_type := 1, sub_section := .tracks [] }] }

/-- A 28-byte `mtph` playlist-membership block: header length 28, track
identifier `ident` at offset 24. -/
def mkMtph (ident : Nat) : List Nat :=
  [0x6D, 0x74, 0x70, 0x68] ++ le32 28 ++ List.replicate 16 0 ++ le32 ident

/-- A 16-byte stray `mhoh` block as it appears inside an mtph list: its
section length (offset 8) is 16, so skipping it advances exactly past it. -/
def c9strayMhoh : List Nat :=
  [0x6D, 0x68, 0x6F, 0x68] ++ le32 4 ++ le32 16 ++ le32 0

/-- The walked span of the `c9buf` playlist block: a `miph` header with
header length 20, data length 120 = 20 + 28 + 16 + 28 + 28, no mhoh
children and `num_mtph = 3`, followed by the mtph list with one stray
`mhoh` between the first and second entries. -/
def c9front : List Nat :=
  [0x6D, 0x69, 0x70, 0x68] ++ le32 20 ++ le32 120 ++ le32 0 ++ le32 3 ++
  mkMtph 7 ++ c9strayMhoh ++ mkMtph 8 ++ mkMtph 9

/-- An itl `miph` playlist block declaring `num_mtph = 3` whose mtph list
is interrupted by one stray `mhoh` block.  The fixed-offset header fields
(u64 at 440, u16 at 570, u32 at 3392) fall into the trailing padding — the
parser reads them regardless of the declared header length — so the buffer
is padded to 3396 bytes, with 77 stored at offset 3392 (the playlist id). -/
def c9buf : List Nat :=
  c9front ++ List.replicate 3272 0 ++ le32 77

/-- The playlist `c9buf` parses to. -/
def c9playlist : Itl.MiphPlaylist :=
  { persistent_id := 0, id := 77, distinguished_kind := 0
    mhohs := [], identifiers := [7, 8, 9] }

/-- A 43-byte `mhoh` container carrying `PLAYLIST_NAME` (flex tag 0x64):
string type 0 (UTF-8) at offset 24, string length 3 at offset 28, the
bytes of `"Fav"` at offset 40, section length 43. -/
def c10nameMhoh : List Nat :=
  [0x6D, 0x68, 0x6F, 0x68] ++ le32 4 ++ le32 43 ++ le32 0x64 ++
  List.replicate 8 0 ++ le32 0 ++ le32 3 ++ List.replicate 8 0 ++
  [70, 97, 118]

/-- The walked span of `c10miphEmpty`: a `miph` header with header length
20, data length 63 = 20 + 43, one mhoh child (the name container) and
`num_mtph = 0`. -/
def c10frontEmpty : List Nat :=
  [0x6D, 0x69, 0x70, 0x68] ++ le32 20 ++ le32 63 ++ le32 1 ++ le32 0 ++
  c10nameMhoh

/-- An itl `miph` block that carries a `PLAYLIST_NAME` container ("Fav")
but declares `num_mtph = 0`, padded to 3396 bytes for the fixed-offset
header reads. -/
def c10miphEmpty : List Nat :=
  c10frontEmpty ++ List.replicate 3329 0 ++ le32 77

/-- An `mlph` playlist-master block (header length 12, one miph child)
containing only `c10miphEmpty`. -/
def c10mlph : List Nat :=
  [0x6D, 0x6C, 0x70, 0x68] ++ le32 12 ++ le32 1 ++ c10miphEmpty

/-- The walked span of `c10miphOne`: a `miph` header with header length
20, data length 48 = 20 + 28, no mhoh children and `num_mtph = 1`,
followed by one mtph entry with identifier 5. -/
def c10frontOne : List Nat :=
  [0x6D, 0x69, 0x70, 0x68] ++ le32 20 ++ le32 48 ++ le32 0 ++ le32 1 ++
  mkMtph 5

/-- An itl `miph` block with exactly one mtph entry (identifier 5), padded
to 3396 bytes for the fixed-offset header reads. -/
def c10miphOne : List Nat :=
  c10frontOne ++ List.replicate 3344 0 ++ le32 77

/-- The playlist `c10miphOne` parses to. -/
def c10playlistOne : Itl.MiphPlaylist :=
  { persistent_id := 0, id := 77, distinguished_kind := 0
    mhohs := [], identifiers := [5] }

end MusicdbParser

deriving instance DecidableEq for Except

namespace MusicdbParser

set_option maxRecDepth 20000

/-! ### Helper lemmas -/

/-- Inversion for a successful `Except` bind. -/
theorem bindOk {α β : Type} {e : Except PyErr α} {f : α → Except PyErr β}
    {b : β} (h : Except.bind e f = .ok b) : ∃ a, e = .ok a ∧ f a = .ok b := by
  cases e with
  | error err => simp [Except.bind] at h
  | ok a => exact ⟨a, rfl, by simpa [Except.bind] using h⟩

/-- A slice read that starts past a known prefix only depends on the rest
of the buffer. -/
theorem sliceExact_shift (pre rest : List Nat) (i n : Nat)
    (h : pre.length ≤ i) :
    sliceExact (pre ++ rest) i n = sliceExact rest (i - pre.length) n := by
  unfold sliceExact
  rw [List.drop_append_eq_append_drop, List.drop_eq_nil_of_le h,
    List.nil_append]

/-- `_parse_boma_track_numerics` never overwrites a numerics field that is
already set: `_set_if_unset` assigns only to `None` fields. -/
theorem numericsStepPreserves (f : NumericsField) (r : BufferReader)
    (st : Nat) (t t' : ItmaTrack) (v : Nat) (hset : f.get t = some v)
    (h : parseBomaTrackNumerics r st t = .ok t') : f.get t' = some v := by
  unfold parseBomaTrackNumerics at h
  by_cases h1 : st = 1
  · rw [if_pos h1] at h
    simp only [bind, Except.bind] at h
    obtain ⟨a1, -, h⟩ := bindOk h
    obtain ⟨a2, -, h⟩ := bindOk h
    obtain ⟨a3, -, h⟩ := bindOk h
    obtain ⟨a4, -, h⟩ := bindOk h
    obtain ⟨a5, -, h⟩ := bindOk h
    obtain ⟨a6, -, h⟩ := bindOk h
    cases h
    cases f <;> simp_all [NumericsField.get, setIfUnset]
  · rw [if_neg h1] at h
    by_cases h2 : st = 23
    · rw [if_pos h2] at h
      simp only [bind, Except.bind] at h
      obtain ⟨pc, -, h⟩ := bindOk h
      by_cases hpc : 0 < pc
      · rw [if_pos hpc] at h
        obtain ⟨dlp, -, h⟩ := bindOk h
        cases h
        cases f <;> simp_all [NumericsField.get, setIfUnset]
      · rw [if_neg hpc] at h
        cases h
        cases f <;> simp_all [NumericsField.get, setIfUnset]
    · rw [if_neg h2] at h
      cases h
      exact hset

/-- The shared star formula agrees with integer `rating*5/100` on the
documented rating range. -/
theorem pythonShortRating_spec : ∀ r < 101, pythonShortRating r = r * 5 / 100 := by
  decide

/-! ### Claim C3 — bounds checking of the binary reader -/

/-- Claim C3, counterexample: the claim says every read whose addressed
range extends past the end of the buffer is a fatal decode error, for
byte-string reads too.  But `read_bytes` is a plain Python slice: asked
for 5 bytes of a 2-byte buffer it silently returns the 2 existing bytes
and no error is raised (its result type in this embedding is not even
fallible). -/
theorem claimC3_counterexample :
    readBytes ⟨[1, 2], 0⟩ 0 (some 5) = [1, 2] ∧ ([1, 2] : List Nat).length < 5 := by
  decide

/-- Claim C3, amended: every fixed-format tuple read and every integer
read raises `struct.error` when the addressed range extends past the end
of the buffer, but the byte-string read `read_bytes` silently returns the
`min(length, remaining)` bytes that exist. -/
theorem claimC3 :
    (∀ (d : List Nat) (p off : Nat), d.length < p + off + 1 →
      readUInt8 ⟨d, p⟩ off = .error .structError)
    ∧ (∀ (d : List Nat) (p off : Nat) (le : Bool), d.length < p + off + 2 →
      readUInt16 ⟨d, p⟩ off le = .error .structError)
    ∧ (∀ (d : List Nat) (p off : Nat) (le : Bool), d.length < p + off + 4 →
      readUInt32 ⟨d, p⟩ off le = .error .structError)
    ∧ (∀ (d : List Nat) (p off : Nat) (le : Bool), d.length < p + off + 4 →
      readInt32 ⟨d, p⟩ off le = .error .structError)
    ∧ (∀ (d : List Nat) (p off : Nat) (le : Bool), d.length < p + off + 8 →
      readUInt64 ⟨d, p⟩ off le = .error .structError)
    ∧ (∀ (d : List Nat) (p off : Nat), d.length < p + off + 8 →
      read4sI ⟨d, p⟩ off = .error .structError)
    ∧ (∀ (d : List Nat) (p off : Nat), d.length < p + off + 12 →
      read4sII ⟨d, p⟩ off = .error .structError)
    ∧ (∀ (d : List Nat) (p off : Nat), d.length < p + off + 16 →
      read4sIII ⟨d, p⟩ off = .error .structError)
    ∧ (∀ (d : List Nat) (p off : Nat), d.length < p + off + 20 →
      read4sIIII ⟨d, p⟩ off = .error .structError)
    ∧ (∀ (d : List Nat) (p off : Nat), d.length < p + off + 28 →
      read4sIIIQI ⟨d, p⟩ off = .error .structError)
    ∧ (∀ (d : List Nat) (p off : Nat), d.length < p + off + 8 →
      readII ⟨d, p⟩ off = .error .structError)
    ∧ (∀ (d : List Nat) (p off l : Nat),
      (readBytes ⟨d, p⟩ off (some l)).length = min l (d.length - (p + off))) := by
  refine ⟨?_, ?_, ?_, ?_, ?_, ?_, ?_, ?_, ?_, ?_, ?_, ?_⟩ <;> intro d p off
  case _ =>
    intro h
    simp only [readUInt8, sliceExact, List.length_take, List.length_drop]
    rw [if_neg (by omega)]
    rfl
  case _ =>
    intro le h
    simp only [readUInt16, sliceExact, List.length_take, List.length_drop]
    rw [if_neg (by omega)]
    rfl
  case _ =>
    intro le h
    simp only [readUInt32, sliceExact, List.length_take, List.length_drop]
    rw [if_neg (by omega)]
    rfl
  case _ =>
    intro le h
    simp only [readInt32, sliceExact, List.length_take, List.length_drop]
    rw [if_neg (by omega)]
    rfl
  case _ =>
    intro le h
    simp only [readUInt64, sliceExact, List.length_take, List.length_drop]
    rw [if_neg (by omega)]
    rfl
  case _ =>
    intro h
    simp only [read4sI, sliceExact, List.length_take, List.length_drop]
    rw [if_neg (by omega)]
    rfl
  case _ =>
    intro h
    simp only [read4sII, sliceExact, List.length_take, List.length_drop]
    rw [if_neg (by omega)]
    rfl
  case _ =>
    intro h
    simp only [read4sIII, sliceExact, List.length_take, List.length_drop]
    rw [if_neg (by omega)]
    rfl
  case _ =>
    intro h
    simp only [read4sIIII, sliceExact, List.length_take, List.length_drop]
    rw [if_neg (by omega)]
    rfl
  case _ =>
    intro h
    simp only [read4sIIIQI, sliceExact, List.length_take, List.length_drop]
    rw [if_neg (by omega)]
    rfl
  case _ =>
    intro h
    simp only [readII, sliceExact, List.length_take, List.length_drop]
    rw [if_neg (by omega)]
    rfl
  case _ =>
    intro l
    simp [readBytes, List.length_take, List.length_drop]

/-- Claim C3, witness: the amended theorem applied at concrete inputs — an
integer read past the end of a 2-byte buffer fails, a tuple read past the
end fails. -/
theorem claimC3_witness :
    readUInt32 ⟨[1, 2], 0⟩ 0 true = .error .structError
    ∧ read4sIII ⟨[1, 2], 1⟩ 3 = .error .structError
    ∧ (readBytes ⟨[1, 2], 0⟩ 0 (some 5)).length = min 5 ([1, 2].length - (0 + 0)) :=
  ⟨claimC3.2.2.1 [1, 2] 0 0 true (by decide),
   claimC3.2.2.2.2.2.2.2.1 [1, 2] 1 3 (by decide),
   claimC3.2.2.2.2.2.2.2.2.2.2.2 [1, 2] 0 0 5⟩

/-! ### Claim C6 — star rating -/

/-- Claim C6: for every track with rating in `0..=100`, both
`ItmaTrack.stars` and `Track.short_rating` — the exact binary64 evaluation
of `int(rating/100 * 5)` — equal the integer `rating*5/100`. -/
theorem claimC6 :
    (∀ t : ItmaTrack, t.rating ≤ 100 → t.stars = t.rating * 5 / 100)
    ∧ (∀ t : Track, t.rating ≤ 100 → t.short_rating = t.rating * 5 / 100) := by
  constructor
  · intro t h
    exact pythonShortRating_spec t.rating (by omega)
  · intro t h
    exact pythonShortRating_spec t.rating (by omega)

/-- Claim C6, witness: ratings 100, 0 and 50 map to 5, 0 and 2 stars. -/
theorem claimC6_witness :
    c6track100.stars = 5 ∧ c6track0.stars = 0 ∧ c6view50.short_rating = 2 :=
  ⟨by have h := claimC6.1 c6track100 (by decide); simpa [c6track100] using h,
   by have h := claimC6.1 c6track0 (by decide); simpa [c6track0] using h,
   by have h := claimC6.2 c6view50 (by decide); simpa [c6view50] using h⟩

/-! ### Claim C1 — unknown section types -/

/-- Claim C1, counterexample: the claim says the musicdb parser tolerates
an hsma section with an unknown type tag by skipping it.  In fact a
section of type 7 fails the parse: when the declared section length equals
the next-section offset the `SectionType(section_type)` conversion raises,
and otherwise the expected-end check fails.  Nothing is skipped. -/
theorem claimC1_counterexample :
    parseHsma ⟨[0x68, 0x73, 0x6D, 0x61, 16, 0, 0, 0, 16, 0, 0, 0, 7, 0, 0, 0], 0⟩
      = .error .enumValueError
    ∧ parseHsma ⟨[0x68, 0x73, 0x6D, 0x61, 16, 0, 0, 0, 20, 0, 0, 0, 7, 0, 0, 0], 0⟩
      = .error .posMismatch := by
  decide

/-- Claim C1, amended: the musicdb parser does not tolerate unknown hsma
section types — for every well-formed hsma header whose type tag is
outside the `SectionType` enumeration the parse fails (with the
enum-conversion error when the lengths coincide, the expected-end error
otherwise); and the itl parser raises the unknown-block error for every
msdh block type without a `match` case (every type outside its
enumeration, plus the unhandled members 3 and 19). -/
theorem claimC1 :
    (∀ (r : BufferReader) (nso slen t : Nat),
      read4sIII r 0 = .ok (hsmaSig, nso, slen, t) →
      ¬ sectionTypeValues.contains t →
      parseHsma r = .error
        (if nso = slen then PyErr.enumValueError else PyErr.posMismatch))
    ∧ (∀ (fuel : Nat) (r : BufferReader) (hlen dlen t : Nat),
      read4sIII r 0 = .ok (Itl.msdhSig, hlen, dlen, t) →
      ¬ Itl.handledBlockTypes.contains t →
      Itl.parseMsdh fuel r = .error .unknownBlockType) := by
  constructor
  · intro r nso slen t hread ht
    simp only [sectionTypeValues, List.contains_cons, List.contains_nil,
      Bool.or_eq_true, beq_iff_eq, not_or] at ht
    obtain ⟨h1, h2, h3, h4, h5, h6, h17, -⟩ := ht
    unfold parseHsma
    rw [hread]
    simp only [bind, Except.bind, checkSignature, if_pos rfl, pure,
      Except.pure, if_neg h1, if_neg h2, if_neg h3, if_neg h4, if_neg h5,
      if_neg h6, if_neg h17, advanceNat]
    by_cases h : nso = slen
    · subst h
      simp [sectionTypeValues, h1, h2, h3, h4, h5, h6, h17]
    · have hne : r.pos + nso ≠ r.pos + slen := by omega
      simp [hne, h]
  · intro fuel r hlen dlen t hread ht
    simp only [Itl.handledBlockTypes, List.contains_cons, List.contains_nil,
      Bool.or_eq_true, beq_iff_eq, not_or] at ht
    obtain ⟨h11, h13, h1, h16, h9, h12, h14, h2, h4, h15, h21, h23, h20, -⟩ := ht
    unfold Itl.parseMsdh
    rw [hread]
    simp [bind, Except.bind, checkSignature, pure, Except.pure,
      h11, h13, h1, h16, h9, h12, h14, h2, h4, h15, h21, h23, h20]

/-- Claim C1, witness: the amended theorem applied to a musicdb section of
type 9 and an itl block of type 19 (the XML block, which the itl dispatch
does not handle). -/
theorem claimC1_witness :
    parseHsma ⟨[0x68, 0x73, 0x6D, 0x61, 16, 0, 0, 0, 16, 0, 0, 0, 9, 0, 0, 0], 0⟩
      = .error (if 16 = 16 then PyErr.enumValueError else PyErr.posMismatch)
    ∧ Itl.parseMsdh 1 ⟨[0x6D, 0x73, 0x64, 0x68, 16, 0, 0, 0, 16, 0, 0, 0, 19, 0, 0, 0], 0⟩
      = .error .unknownBlockType :=
  ⟨claimC1.1 ⟨[0x68, 0x73, 0x6D, 0x61, 16, 0, 0, 0, 16, 0, 0, 0, 9, 0, 0, 0], 0⟩
      16 16 9 (by decide) (by decide),
   claimC1.2 1 ⟨[0x6D, 0x73, 0x64, 0x68, 16, 0, 0, 0, 16, 0, 0, 0, 19, 0, 0, 0], 0⟩
      16 16 19 (by decide) (by decide)⟩

/-! ### Claim C7 — first-writer-wins for the numerics fields -/

/-- Claim C7: for every numerics field already carrying a value, no later
track-numerics container changes it — processing any list of numerics
containers in on-disk order keeps the value written first
(first-writer-wins). -/
theorem claimC7 (f : NumericsField) (t : ItmaTrack)
    (l : List (BufferReader × Nat)) (t' : ItmaTrack) (v : Nat)
    (hset : f.get t = some v) (hfold : foldBomaTrackNumerics t l = .ok t') :
    f.get t' = some v := by
  induction l generalizing t with
  | nil =>
    unfold foldBomaTrackNumerics at hfold
    cases hfold
    exact hset
  | cons hd tl ih =>
    obtain ⟨r, st⟩ := hd
    unfold foldBomaTrackNumerics at hfold
    simp only [bind, Except.bind] at hfold
    obtain ⟨t1, hstep, hrest⟩ := bindOk hfold
    exact ih t1 (numericsStepPreserves f r st t t1 v hset hstep) hrest

/-- Claim C7, witness: a track whose `bitrate` was already set to 7 keeps
it through an all-zero numerics-1 container (which fills only the unset
fields). -/
theorem claimC7_witness :
    foldBomaTrackNumerics c7track [(c7boma, 1)] = .ok c7result
    ∧ NumericsField.bitrate.get c7result = some 7 :=
  ⟨by decide,
   claimC7 .bitrate c7track [(c7boma, 1)] c7result 7 (by decide) (by decide)⟩

/-! ### Claim C4 — play_count and date_last_played -/

/-- Claim C4, counterexample: the claim says a track with `play_count = 0`
never has `date_last_played` set.  Processing two numerics-2 containers —
the first storing play count 0, the second storing play count 5 and
last-played date 1234 — leaves the track with `play_count = 0` (first
writer wins) and `date_last_played = 1234` (set by the second container,
whose own play count is positive). -/
theorem claimC4_counterexample :
    (foldBomaTrackNumerics c4freshTrack [(c4bomaZero, 0x17), (c4bomaPos, 0x17)]).map
      (fun t => (t.play_count, t.date_last_played)) = .ok (some 0, some 1234)
    ∧ (some 1234 : Option Nat) ≠ Option.none := by
  decide

/-- Claim C4, amended: a single numerics-2 container keeps the claimed
invariant — starting from a fresh track it yields `play_count = 0` only
with `date_last_played` unset; and in general `date_last_played` is set by
a container exactly when that container's own stored play count (u32 at
offset 32) is positive.  With several numerics-2 containers the invariant
over the final track does not hold (see the counterexample). -/
theorem claimC4 :
    (∀ (r : BufferReader) (t t' : ItmaTrack),
      t.play_count = Option.none → t.date_last_played = Option.none →
      parseBomaTrackNumerics r 0x17 t = .ok t' →
      t'.play_count = some 0 → t'.date_last_played = Option.none)
    ∧ (∀ (r : BufferReader) (st : Nat) (t t' : ItmaTrack),
      parseBomaTrackNumerics r st t = .ok t' →
      t.date_last_played = Option.none → t'.date_last_played ≠ Option.none →
      st = 0x17 ∧ ∃ pc, readUInt32 r 32 = .ok pc ∧ 0 < pc) := by
  constructor
  · intro r t t' hpcn hdlpn h hzero
    unfold parseBomaTrackNumerics at h
    rw [if_neg (by decide), if_pos rfl] at h
    simp only [bind, Except.bind] at h
    obtain ⟨pc, hpcread, h⟩ := bindOk h
    by_cases hp : 0 < pc
    · rw [if_pos hp] at h
      obtain ⟨dlp, -, h⟩ := bindOk h
      cases h
      simp only [setIfUnset, hpcn] at hzero
      simp at hzero
      omega
    · rw [if_neg hp] at h
      cases h
      exact hdlpn
  · intro r st t t' h hdlpn hset
    unfold parseBomaTrackNumerics at h
    by_cases h1 : st = 1
    · rw [if_pos h1] at h
      simp only [bind, Except.bind] at h
      obtain ⟨a1, -, h⟩ := bindOk h
      obtain ⟨a2, -, h⟩ := bindOk h
      obtain ⟨a3, -, h⟩ := bindOk h
      obtain ⟨a4, -, h⟩ := bindOk h
      obtain ⟨a5, -, h⟩ := bindOk h
      obtain ⟨a6, -, h⟩ := bindOk h
      cases h
      exact absurd hdlpn hset
    · rw [if_neg h1] at h
      by_cases h2 : st = 23
      · rw [if_pos h2] at h
        simp only [bind, Except.bind] at h
        obtain ⟨pc, hr, h⟩ := bindOk h
        by_cases hp : 0 < pc
        · exact ⟨h2, pc, hr, hp⟩
        · rw [if_neg hp] at h
          cases h
          exact absurd hdlpn hset
      · rw [if_neg h2] at h
        cases h
        exact absurd hdlpn hset

/-- Claim C4, witness: the amended theorem applied to a fresh track and a
single numerics-2 container whose stored play count is 0 — the result has
`play_count = 0` and no `date_last_played`. -/
theorem claimC4_witness :
    parseBomaTrackNumerics c4bomaZero 0x17 c4freshTrack
      = .ok { c4freshTrack with play_count := some 0 }
    ∧ ({ c4freshTrack with play_count := some 0 } : ItmaTrack).date_last_played
      = Option.none :=
  ⟨by decide,
   claimC4.1 c4bomaZero c4freshTrack { c4freshTrack with play_count := some 0 }
     (by decide) (by decide) (by decide) (by decide)⟩

/-! ### Claim C2 — library location -/

/-- The scan of `get_library_location` agrees with `find?`: the first
container tagged `MANAGED_MEDIA_FOLDER` whose value is a string decides
the result. -/
theorem findMediaFolder_find (bs : List BomaDataContainer)
    (b : BomaDataContainer) (v : String) (incl : Bool)
    (hf : bs.find? (fun c => c.tag = 0x1F8) = some b) (hv : b.value = some v) :
    findMediaFolder bs incl =
      .ok (if incl then pyUnquote v
           else removePrefixStr (pyUnquote v) "file://localhost/") := by
  induction bs with
  | nil => simp at hf
  | cons c cs ih =>
    unfold findMediaFolder
    by_cases hc : c.tag = 0x1F8
    · rw [if_pos hc]
      have hb : b = c := by
        rw [List.find?_cons_of_pos _ (by simp [hc])] at hf
        exact (Option.some.injEq .. ▸ hf.symm)
      subst hb
      rw [hv]
    · rw [if_neg hc]
      apply ih
      rw [List.find?_cons_of_neg _ (by simp [hc])] at hf
      exact hf

/-- Claim C2, counterexample: the claim says the example value
`file://localhost/Users/me/Music/` yields `/Users/me/Music/` with
`include_file_prefix=false`.  The code strips the whole prefix
`file://localhost/` — including the slash that begins the absolute path —
and returns `Users/me/Music/`, which is not the claimed string. -/
theorem claimC2_counterexample :
    getLibraryLocation c2lib false = .ok "Users/me/Music/"
    ∧ ("Users/me/Music/" : String) ≠ "/Users/me/Music/" := by
  constructor
  · decide
  · decide

/-- Claim C2, amended: the view operation URL-unescapes the value of the
first `MANAGED_MEDIA_FOLDER` container of the library-master section and,
when `include_file_prefix` is false, strips the `file://localhost/`
prefix; the example value therefore yields `Users/me/Music/` (without a
leading slash), not `/Users/me/Music/`. -/
theorem claimC2 (lib : RawLibrary) (sec : Hsma)
    (bs : List BomaDataContainer) (b : BomaDataContainer) (v : String)
    (hsec : lib.sections.find? (fun s => s.section_type = 6) = some sec)
    (hsub : sec.sub_section = .bomas bs)
    (hf : bs.find? (fun c => c.tag = 0x1F8) = some b)
    (hv : b.value = some v) :
    getLibraryLocation lib false
      = .ok (removePrefixStr (pyUnquote v) "file://localhost/")
    ∧ getLibraryLocation lib true = .ok (pyUnquote v) := by
  have hbs : ∃ c cs, bs = c :: cs := by
    cases bs with
    | nil => simp at hf
    | cons c cs => exact ⟨c, cs, rfl⟩
  obtain ⟨c, cs, rfl⟩ := hbs
  constructor
  · unfold getLibraryLocation
    rw [hsec]
    dsimp only
    rw [hsub]
    have h := findMediaFolder_find (c :: cs) b v false hf hv
    simpa using h
  · unfold getLibraryLocation
    rw [hsec]
    dsimp only
    rw [hsub]
    have h := findMediaFolder_find (c :: cs) b v true hf hv
    simpa using h

/-- Claim C2, witness: the amended theorem applied to the concrete fixture
library; the value decodes to `Users/me/Music/` and, with the prefix kept,
to the raw URL. -/
theorem claimC2_witness :
    getLibraryLocation c2lib false = .ok "Users/me/Music/"
    ∧ getLibraryLocation c2lib true = .ok "file://localhost/Users/me/Music/" := by
  have h := claimC2 c2lib
    { section_type := 6
      sub_section := .bomas
        [⟨.wideChar, 0x1F8, some "file://localhost/Users/me/Music/"⟩] }
    [⟨.wideChar, 0x1F8, some "file://localhost/Users/me/Music/"⟩]
    ⟨.wideChar, 0x1F8, some "file://localhost/Users/me/Music/"⟩
    "file://localhost/Users/me/Music/" (by decide) rfl (by decide) rfl
  constructor
  · rw [h.1]; decide
  · rw [h.2]; decide

/-! ### Claim C5 — playlist names -/

/-- Claim C5, counterexample: the claim says every playlist returned by
the view layer has a non-empty name.  A playlist whose `PLAYLIST_NAME`
container holds the empty string (a zero-length name container decodes to
`""`) is returned with name `""`. -/
theorem claimC5_counterexample :
    (getPlaylists c5lib).map (fun l => l.map Playlist.name) = .ok [""]
    ∧ ("" : String).length = 0 := by
  constructor
  · decide
  · decide

/-- Claim C5, amended: the view layer takes the playlist name from the
first `PLAYLIST_NAME` container — the name is a string but may be empty;
a raw playlist with no such container, or whose first such container is
not a string, is silently dropped (`None`, not an error), and
`get_playlists` keeps exactly the accepted playlists. -/
theorem claimC5 :
    (∀ (lp : LpmaPlaylist) (tz : Int),
      lp.bomas.find? (fun b => b.tag = 0xC8) = Option.none →
      lpma2playlist lp tz = Option.none)
    ∧ (∀ (lp : LpmaPlaylist) (tz : Int) (b : BomaDataContainer),
      lp.bomas.find? (fun b => b.tag = 0xC8) = some b →
      b.value = Option.none → lpma2playlist lp tz = Option.none)
    ∧ (∀ (lp : LpmaPlaylist) (tz : Int) (b : BomaDataContainer) (s : String),
      lp.bomas.find? (fun b => b.tag = 0xC8) = some b →
      b.value = some s →
      ∃ pl, lpma2playlist lp tz = some pl ∧ pl.name = s)
    ∧ (∀ (lib : RawLibrary) (sec : Hsma) (p : LpmaPlaylist)
        (ps : List LpmaPlaylist),
      lib.sections.find? (fun s => s.section_type = 2) = some sec →
      sec.sub_section = .playlists (p :: ps) →
      getPlaylists lib
        = .ok ((p :: ps).filterMap (fun lp => lpma2playlist lp lib.tz_offset))) := by
  refine ⟨?_, ?_, ?_, ?_⟩
  · intro lp tz h
    unfold lpma2playlist
    rw [h]
  · intro lp tz b hf hv
    unfold lpma2playlist
    rw [hf]
    dsimp only
    rw [hv]
  · intro lp tz b s hf hv
    unfold lpma2playlist
    rw [hf]
    dsimp only
    rw [hv]
    exact ⟨_, rfl, rfl⟩
  · intro lib sec p ps hsec hsub
    unfold getPlaylists
    rw [hsec]
    dsimp only
    rw [hsub]

/-- Claim C5, witness: the amended theorem applied to a playlist with no
`PLAYLIST_NAME` container (it is dropped) and to the empty-name fixture
(it is kept with name `""`). -/
theorem claimC5_witness :
    lpma2playlist c5noNamePlaylist 0 = Option.none
    ∧ ∃ pl, lpma2playlist c5emptyNamePlaylist 0 = some pl ∧ pl.name = "" :=
  ⟨claimC5.1 c5noNamePlaylist 0 (by decide),
   claimC5.2.2.1 c5emptyNamePlaylist 0 ⟨.wideChar, 0xC8, some ""⟩ ""
     (by decide) rfl⟩

/-! ### Claim C8 — empty track list -/

/-- Claim C8, counterexample: the claim says a library whose track master
declares `num_itma = 0` parses to an empty track sequence and that
enumerating its tracks succeeds with an empty list.  The parse does yield
the empty sequence, but `get_tracks` asserts the raw track list is
non-empty, so enumeration raises `AssertionError` instead of returning
`[]`. -/
theorem claimC8_counterexample :
    (parseSections 2 ⟨c8buf, 0⟩).map (fun p => (p.1, p.2.pos))
      = .ok ([{ section_type := 1, sub_section := .tracks [] }], 28)
    ∧ getTracks c8lib true = .error .assertionError := by
  constructor
  · decide
  · decide

/-- Claim C8, amended: a track-master section declaring `num_itma = 0`
parses to an empty track sequence without error; but `get_tracks` on a
library whose track-master payload is the empty list fails its non-empty
assertion rather than returning an empty list. -/
theorem claimC8 :
    (∀ (r : BufferReader) (slen : Nat),
      read4sII r 0 = .ok (ltmaSig, slen, 0) →
      parseLtmaTrackMaster r = .ok ([], advanceNat r slen))
    ∧ (∀ (lib : RawLibrary) (sec : Hsma),
      lib.sections.find? (fun s => s.section_type = 1) = some sec →
      sec.sub_section = .tracks [] →
      ∀ ix : Bool, getTracks lib ix = .error .assertionError) := by
  constructor
  · intro r slen hread
    unfold parseLtmaTrackMaster
    rw [hread]
    rfl
  · intro lib sec hsec hsub ix
    unfold getTracks
    rw [hsec]
    dsimp only
    rw [hsub]

/-- Claim C8, witness: the amended theorem applied to the concrete `ltma`
block with `num_itma = 0` and to the parsed fixture library. -/
theorem claimC8_witness :
    parseLtmaTrackMaster ⟨c8ltmaBytes, 0⟩ = .ok ([], advanceNat ⟨c8ltmaBytes, 0⟩ 12)
    ∧ getTracks c8lib true = .error .assertionError :=
  ⟨claimC8.1 ⟨c8ltmaBytes, 0⟩ 12 (by decide),
   claimC8.2 c8lib { section_type := 1, sub_section := .tracks [] }
     (by decide) rfl true⟩

/-! ### Evaluation lemmas for the large itl fixtures

The `miph` header reads sit at fixed offsets up to 3392; a byte list of
that depth cannot be traversed by plain kernel reduction, so the one deep
read of each fixture is evaluated through `sliceExact_shift` and the rest
by reduction. -/

/-- Length of everything before the playlist-id word of `c9buf`. -/
theorem c9buf_prefix_length : (c9front ++ List.replicate 3272 0).length = 3392 := by
  simp only [c9front, mkMtph, c9strayMhoh, le32, List.length_append,
    List.length_replicate, List.length_cons, List.length_nil]

/-- The playlist-id read of `c9buf` (u32 at offset 3392) yields 77. -/
theorem c9buf_read3392 : readUInt32 ⟨c9buf, 0⟩ 3392 = .ok 77 := by
  unfold readUInt32
  rw [show c9buf = (c9front ++ List.replicate 3272 0) ++ le32 77 by
    simp only [c9buf, List.append_assoc]]
  rw [show (0 : Nat) + 3392 = 3392 from rfl]
  rw [sliceExact_shift _ _ _ _ (by rw [c9buf_prefix_length])]
  rw [c9buf_prefix_length]
  decide

/-- Length of everything before the playlist-id word of `c10mlph`. -/
theorem c10mlph_prefix_length :
    ((([0x6D, 0x6C, 0x70, 0x68] ++ le32 12 ++ le32 1) ++ c10frontEmpty) ++
      List.replicate 3329 0).length = 3404 := by
  simp only [c10frontEmpty, c10nameMhoh, le32, List.length_append,
    List.length_replicate, List.length_cons, List.length_nil]

/-- The playlist-id read of the miph embedded in `c10mlph` (u32 at offset
3392 from cursor position 12). -/
theorem c10mlph_read3392 : readUInt32 (advanceNat ⟨c10mlph, 0⟩ 12) 3392 = .ok 77 := by
  show readUInt32 ⟨c10mlph, 12⟩ 3392 = .ok 77
  unfold readUInt32
  rw [show c10mlph = ((([0x6D, 0x6C, 0x70, 0x68] ++ le32 12 ++ le32 1) ++
      c10frontEmpty) ++ List.replicate 3329 0) ++ le32 77 by
    simp only [c10mlph, c10miphEmpty, List.append_assoc]]
  rw [show (12 : Nat) + 3392 = 3404 from rfl]
  rw [sliceExact_shift _ _ _ _ (by rw [c10mlph_prefix_length])]
  rw [c10mlph_prefix_length]
  decide

/-- The miph embedded in `c10mlph` parses to `None`: its mtph list is
empty, so `_itlp_parse_miph` drops the playlist despite its name
container. -/
theorem c10mlph_miph :
    Itl.parseMiph 10 (advanceNat ⟨c10mlph, 0⟩ 12) = .ok (Option.none, ⟨c10mlph, 75⟩) := by
  show Itl.parseMiph 10 ⟨c10mlph, 12⟩ = .ok (Option.none, ⟨c10mlph, 75⟩)
  unfold Itl.parseMiph
  rw [show readUInt32 ⟨c10mlph, 12⟩ 3392 = .ok 77 from c10mlph_read3392]
  rfl

/-- The full playlist-master fixture parses to the empty playlist list. -/
theorem c10mlph_eval : Itl.parsePlaylist 10 ⟨c10mlph, 0⟩ = .ok ([], ⟨c10mlph, 75⟩) := by
  unfold Itl.parsePlaylist
  rw [show read4sII ⟨c10mlph, 0⟩ 0 = .ok (Itl.mlphSig, 12, 1) from rfl]
  simp only [bind, Except.bind, checkSignature, if_pos]
  unfold Itl.miphLoop
  rw [c10mlph_miph]
  rfl

/-- Length of everything before the playlist-id word of `c10miphOne`. -/
theorem c10miphOne_prefix_length :
    (c10frontOne ++ List.replicate 3344 0).length = 3392 := by
  simp only [c10frontOne, mkMtph, le32, List.length_append,
    List.length_replicate, List.length_cons, List.length_nil]

/-- The playlist-id read of `c10miphOne`. -/
theorem c10miphOne_read3392 : readUInt32 ⟨c10miphOne, 0⟩ 3392 = .ok 77 := by
  unfold readUInt32
  rw [show c10miphOne = (c10frontOne ++ List.replicate 3344 0) ++ le32 77 by
    simp only [c10miphOne, List.append_assoc]]
  rw [show (0 : Nat) + 3392 = 3392 from rfl]
  rw [sliceExact_shift _ _ _ _ (by rw [c10miphOne_prefix_length])]
  rw [c10miphOne_prefix_length]
  decide

/-- The one-entry miph fixture parses to a playlist with identifier
list `[5]`. -/
theorem c10miphOne_eval :
    Itl.parseMiph 10 ⟨c10miphOne, 0⟩ = .ok (some c10playlistOne, ⟨c10miphOne, 48⟩) := by
  unfold Itl.parseMiph
  rw [c10miphOne_read3392]
  rfl

/-! ### Claim C9 — stray mhoh inside an mtph list -/

/-- Claim C9: while scanning the mtph list, a block tagged `mhoh` is
skipped by its section length at offset 8 without consuming an mtph slot;
and the concrete miph fixture declaring `num_mtph = 3` with one stray
`mhoh` between its mtph entries parses successfully, ending at its
declared end with exactly the 3 track identifiers. -/
theorem claimC9 :
    (∀ (fuel : Nat) (r : BufferReader) (numMtph : Nat) (mtphs : List Nat),
      mtphs.length < numMtph →
      readBytes r 0 (some 4) = Itl.mhohSig →
      Itl.mtphScan (fuel + 1) r numMtph mtphs =
        Except.bind (readUInt32 r 8)
          (fun sl => Itl.mtphScan fuel (advanceNat r sl) numMtph mtphs))
    ∧ (Itl.parseMiph 10 ⟨c9buf, 0⟩).map
        (fun p => (p.1.map Itl.MiphPlaylist.identifiers, p.2.pos))
      = .ok (some [7, 8, 9], 120) := by
  constructor
  · intro fuel r numMtph mtphs hlen hhdr
    unfold Itl.mtphScan
    rw [if_pos hlen, hhdr]
    rw [if_neg (by decide), if_pos rfl]
    simp only [bind, Except.bind]
    cases h8 : readUInt32 r 8 with
    | error e => rfl
    | ok sl =>
      dsimp only
      conv_lhs => rw [Itl.mtphScan.eq_def]
      rfl
  · unfold Itl.parseMiph
    rw [c9buf_read3392]
    decide

/-- Claim C9, witness: the skip step applied to a reader positioned at the
concrete stray `mhoh` block. -/
theorem claimC9_witness :
    Itl.mtphScan 2 ⟨c9strayMhoh, 0⟩ 1 [] =
      Except.bind (readUInt32 ⟨c9strayMhoh, 0⟩ 8)
        (fun sl => Itl.mtphScan 1 (advanceNat ⟨c9strayMhoh, 0⟩ sl) 1 []) :=
  claimC9.1 1 ⟨c9strayMhoh, 0⟩ 1 [] (by decide) (by decide)

/-! ### Claim C10 — playlists without track identifiers are omitted -/

/-- Claim C10: a miph whose parsed mtph identifier list is empty is
returned as `None` — every playlist `_itlp_parse_miph` does return has a
non-empty identifier list; the concrete playlist-master fixture whose one
miph has a `PLAYLIST_NAME` container ("Fav", parsed at offset 32) but
`num_mtph = 0` yields the empty playlist list. -/
theorem claimC10 :
    (∀ (fuel : Nat) (r r' : BufferReader) (p : Itl.MiphPlaylist),
      Itl.parseMiph fuel r = .ok (some p, r') → p.identifiers ≠ [])
    ∧ (Itl.parsePlaylist 10 ⟨c10mlph, 0⟩).map (fun p => (p.1, p.2.pos))
      = .ok ([], 75)
    ∧ (Itl.parseMhoh ⟨c10mlph, 32⟩).map (fun p => (p.1, p.2.pos))
      = .ok (some ⟨Itl.MhohCls.flex, 0x64, some "Fav"⟩, 75) := by
  refine ⟨?_, ?_, ?_⟩
  · intro fuel r r' p h
    unfold Itl.parseMiph at h
    simp only [bind, Except.bind] at h
    obtain ⟨⟨hdr, hlen, dlen, nmh, nmt⟩, -, h⟩ := bindOk h
    obtain ⟨u, -, h⟩ := bindOk h
    obtain ⟨pid, -, h⟩ := bindOk h
    obtain ⟨dk, -, h⟩ := bindOk h
    obtain ⟨plid, -, h⟩ := bindOk h
    obtain ⟨⟨mhohs, r1⟩, -, h⟩ := bindOk h
    obtain ⟨⟨mtphs, r2⟩, -, h⟩ := bindOk h
    by_cases hpos : r2.pos ≠ r.pos + dlen
    · rw [if_pos hpos] at h
      cases h
    · rw [if_neg hpos] at h
      by_cases hemp : mtphs.isEmpty
      · rw [if_pos hemp] at h
        cases h
      · rw [if_neg hemp] at h
        cases h
        simpa [List.isEmpty_iff] using hemp
  · rw [c10mlph_eval]
    rfl
  · decide

/-- Claim C10, witness: the general part applied to the one-entry miph
fixture, whose parsed playlist indeed has a non-empty identifier list. -/
theorem claimC10_witness :
    Itl.parseMiph 10 ⟨c10miphOne, 0⟩ = .ok (some c10playlistOne, ⟨c10miphOne, 48⟩)
    ∧ c10playlistOne.identifiers ≠ [] :=
  ⟨c10miphOne_eval,
   claimC10.1 10 ⟨c10miphOne, 0⟩ ⟨c10miphOne, 48⟩ c10playlistOne c10miphOne_eval⟩

end MusicdbParser
